import Mathlib

/-
Verification of the staged-execution engine of the jest coverage report
action.  The pipeline itself is translated from src/run.ts; the helper
components that run.ts imports (the stage runner, the data collector and the
external collaborators) are not part of the sources, so they are modelled
from the specification, each marked with a doc comment.
-/

namespace CovAction

/-- Cause of a stage failure: either a message thrown by an external
collaborator, or a TypeError raised by dereferencing an undefined value (the
TypeScript non-null assertion applied to an undefined operand). -/
inductive Cause where
  | thrown (msg : String)
  | nullDeref (field : String)
deriving DecidableEq

/-- One absorbed stage failure: the stage name and the opaque cause. -/
structure ErrorRecord where
  stage : String
  cause : Cause
deriving DecidableEq

/-- Modelled from the spec: the ResultAccumulator (createDataCollector in
utils/DataCollector, which is not under src).  It keeps an append-only list
of error records plus the partial results merged in by add. -/
structure DataCollector (α : Type) where
  errors : List ErrorRecord
  items : List α
deriving DecidableEq

/-- Modelled from the spec: add merges one partial result into the
accumulator and never touches the error list. -/
def DataCollector.add {α : Type} (c : DataCollector α) (x : α) : DataCollector α :=
  ⟨c.errors, c.items ++ [x]⟩

/-- Modelled from the spec: addError appends exactly one error record and
never rolls back prior state. -/
def DataCollector.addError {α : Type} (c : DataCollector α) (stage : String)
    (cause : Cause) : DataCollector α :=
  ⟨c.errors ++ [⟨stage, cause⟩], c.items⟩

/-- Modelled from the spec: get returns the current accumulated state. -/
def DataCollector.get {α : Type} (c : DataCollector α) : DataCollector α := c

/-- Control exit of a stage body: the skip signal, or a raised failure. -/
inductive StageExit where
  | skipSignal
  | raised (cause : Cause)
deriving DecidableEq

/-- A stage body as executed against an accumulator: it may mutate the
accumulator it is handed, it performs a list of observable side effects (the
log), and it finishes either normally with a value or through a control
exit (skip or a raised failure). -/
abbrev BodyM (β α : Type) :=
  DataCollector β → DataCollector β × List String × Except StageExit α

/-- Modelled from the spec: runStage (utils/runStage, which is not under
src) executes one stage body; a normal return becomes (true, value), the
skip signal becomes (false, undefined) with no error recorded, and a raised
failure becomes (false, undefined) with exactly one error record appended to
the given accumulator.  runStage is a total function: no exit of the body
ever propagates out of it. -/
def runStage {β α : Type} (name : String) (c : DataCollector β)
    (body : BodyM β α) : DataCollector β × Bool × Option α :=
  match body c with
  | (c', _, Except.ok v) => (c', true, some v)
  | (c', _, Except.error StageExit.skipSignal) => (c', false, none)
  | (c', _, Except.error (StageExit.raised cause)) =>
      (DataCollector.addError c' name cause, false, none)

/-- Sequencing of stage-body computations: the continuation runs only when
the first computation finishes normally; a control exit short-circuits, so
none of the effects of the continuation happen. -/
def bodySeq {β α γ : Type} (m : BodyM β α) (f : α → BodyM β γ) : BodyM β γ :=
  fun c =>
    match m c with
    | (c', l, Except.ok v) =>
        match f v c' with
        | (c'', l', r) => (c'', l ++ l', r)
    | (c', l, Except.error e) => (c', l, Except.error e)

/-- The skip() capability: an immediate control exit with no effect on the
accumulator, no side effect, and no error. -/
def skipNow {β α : Type} : BodyM β α :=
  fun c => (c, [], Except.error StageExit.skipSignal)

/-- A stage body that raises the given cause immediately. -/
def throwNow {β α : Type} (cause : Cause) : BodyM β α :=
  fun c => (c, [], Except.error (StageExit.raised cause))

/-- Lifts the return-or-throw outcome of an external call into a stage-body
exit. -/
def exitOf {α : Type} : Except String α → Except StageExit α
  | Except.ok v => Except.ok v
  | Except.error m => Except.error (StageExit.raised (Cause.thrown m))

/-- JavaScript truthiness of an optional string: undefined and the empty
string are falsy. -/
def truthyStr : Option String → Bool
  | none => false
  | some s => !s.isEmpty

/-- The resolved action options, with the fields run.ts reads. -/
structure Options where
  coverageFile : Option String
  baseCoverageFile : Option String
  skipStep : String
  token : String
  annotations : String
deriving DecidableEq

/-- Opaque coverage report payload collected by a coverage stage. -/
structure JsonReport where
  payload : String
deriving DecidableEq

/-- The generated report content: its rendered text and the test-run
report used by the failed-tests annotations. -/
structure SummaryReport where
  text : String
  runReport : String
deriving DecidableEq

/-- Modelled from the spec: one invocation of the external coverage
collection (stages/getCoverage, which is not under src) — the failure causes
it records through the collector it is handed, and its returned report or
thrown cause. -/
structure CoverageCall where
  recordedCauses : List String
  result : Except String JsonReport

/-- Modelled from the spec: the external context and the behavior of every
collaborator run.ts invokes during one run.  Each call is opaque to the
engine and either returns a value or throws. pullRequest is the base branch
ref of the pull-request payload when one is present. -/
structure Env where
  eventName : String
  pullRequest : Option String
  getOptionsCall : Except String Options
  headCoverageCall : CoverageCall
  shouldRunTestScript : String → Bool
  switchBranchCall : Except String Unit
  baseCoverageCall : CoverageCall
  createReportCall : Except String SummaryReport
  prReportCall : Except String Unit
  commitReportCall : Except String Unit
  failedAnnotationsCount : Nat
  failedChecksCall : Except String Unit
  coverageAnnotationsCount : Nat
  coverageChecksCall : Except String Unit

/-- Modelled from the spec: getCoverage records its internal failures
through the collector it receives, tagged with its own internal step name. -/
def recordCoverageCauses (c : DataCollector JsonReport) (causes : List String) :
    DataCollector JsonReport :=
  causes.foldl (fun acc m => acc.addError "getCoverage" (Cause.thrown m)) c

/-- Modelled from the spec: the localized message catalogue (utils/i18n,
which is not under src); the engine only needs that the key failed maps to a
generic failure message. -/
def i18n (key : String) : String :=
  "jest coverage report action reports a generic localized message for " ++ key

/-- The observable state of one pipeline run: the main and disposable
collectors, the ordered list of stage invocations, the stage outcomes run.ts
binds, the hard-abort marker, and the message passed to setFailed. -/
structure RunState where
  dc : DataCollector JsonReport
  ign : DataCollector JsonReport
  trace : List String
  isInitialized : Bool
  optionsVal : Option Options
  isHeadCoverageGenerated : Bool
  headCoverageVal : Option JsonReport
  switchToBaseOutcome : Option (Bool × Option Unit)
  isSwitched : Bool
  baseCoverageVal : Option JsonReport
  isReportContentGenerated : Bool
  summaryReportVal : Option SummaryReport
  abortedWith : Option String
  setFailedMsg : Option String
deriving DecidableEq

/-- The state a run starts from, holding the collector the caller passed. -/
def initState (dc0 : DataCollector JsonReport) : RunState :=
  ⟨dc0, ⟨[], []⟩, [], false, none, false, none, none, true, none, false, none,
   none, none⟩

/-- Stage initialize (run.ts lines 25-33): resolve the options; when the
stage did not complete or produced no options the pipeline throws. -/
def stInitialize (env : Env) (s : RunState) : RunState :=
  let r := runStage "initialize" s.dc (fun c => (c, [], exitOf env.getOptionsCall))
  let s1 : RunState :=
    { s with dc := r.1, trace := s.trace ++ ["initialize"],
             isInitialized := r.2.1, optionsVal := r.2.2 }
  if !r.2.1 || r.2.2.isNone then
    { s1 with abortedWith := some "Initialization failed." }
  else s1

/-- Stage headCoverage (run.ts lines 35-49): collect head coverage through
the main collector; a produced report is merged into the collector. -/
def stHeadCoverage (env : Env) (s : RunState) : RunState :=
  let r := runStage "headCoverage" s.dc
    (fun c => (recordCoverageCauses c env.headCoverageCall.recordedCauses, [],
               exitOf env.headCoverageCall.result))
  let dc1 := match r.2.2 with
    | some hc => DataCollector.add r.1 hc
    | none => r.1
  { s with dc := dc1, trace := s.trace ++ ["headCoverage"],
           isHeadCoverageGenerated := r.2.1, headCoverageVal := r.2.2 }

/-- Stage switchToBase (run.ts lines 51-73): invoked only when no base
coverage file is configured and the skip-step setting requires running the
test script; its body skips unless the run is a pull-request event with a
truthy base branch ref, and otherwise switches branches. -/
def stSwitchToBase (env : Env) (s : RunState) : RunState :=
  match s.optionsVal with
  | none => s
  | some opts =>
    if !truthyStr opts.baseCoverageFile && env.shouldRunTestScript opts.skipStep then
      let isInPR := env.eventName == "pull_request"
      let ex : Except StageExit Unit :=
        if !isInPR || !truthyStr env.pullRequest then
          Except.error StageExit.skipSignal
        else exitOf env.switchBranchCall
      let r := runStage "switchToBase" s.dc (fun c => (c, [], ex))
      { s with dc := r.1, trace := s.trace ++ ["switchToBase"],
               isSwitched := r.2.1, switchToBaseOutcome := some (r.2.1, r.2.2) }
    else s

/-- Stage baseCoverage (run.ts lines 75-96): the body skips when the branch
was not switched, and otherwise collects base coverage through a fresh
disposable collector; the stage runner itself is handed the main collector.
A produced report is merged into the main collector. -/
def stBaseCoverage (env : Env) (s : RunState) : RunState :=
  let ign0 : DataCollector JsonReport := ⟨[], []⟩
  let ignAndExit :=
    if !s.isSwitched then (ign0, Except.error StageExit.skipSignal)
    else (recordCoverageCauses ign0 env.baseCoverageCall.recordedCauses,
          exitOf env.baseCoverageCall.result)
  let r := runStage "baseCoverage" s.dc (fun c => (c, [], ignAndExit.2))
  let dc1 := match r.2.2 with
    | some bc => DataCollector.add r.1 bc
    | none => r.1
  { s with dc := dc1, ign := ignAndExit.1, trace := s.trace ++ ["baseCoverage"],
           baseCoverageVal := r.2.2 }

/-- Stage generateReportContent (run.ts lines 105-111): build the report. -/
def stGenerateReport (env : Env) (s : RunState) : RunState :=
  let r := runStage "generateReportContent" s.dc
    (fun c => (c, [], exitOf env.createReportCall))
  { s with dc := r.1, trace := s.trace ++ ["generateReportContent"],
           isReportContentGenerated := r.2.1, summaryReportVal := r.2.2 }

/-- Stage publishReport (run.ts lines 119-141): skip when no report content
was generated, then dereference summaryReport!.text and publish it as a PR
comment or a commit comment. -/
def stPublishReport (env : Env) (s : RunState) : RunState :=
  let ex : Except StageExit Unit :=
    if !s.isReportContentGenerated then Except.error StageExit.skipSignal
    else
      match s.summaryReportVal with
      | none => Except.error (StageExit.raised (Cause.nullDeref "summaryReport"))
      | some _ =>
        if env.eventName == "pull_request" then
          if env.pullRequest.isNone then
            Except.error (StageExit.raised (Cause.nullDeref "pull_request"))
          else exitOf env.prReportCall
        else exitOf env.commitReportCall
  let r := runStage "publishReport" s.dc (fun c => (c, [], ex))
  { s with dc := r.1, trace := s.trace ++ ["publishReport"] }

/-- Stage failedTestsAnnotations (run.ts lines 149-170): skip unless head
coverage was generated and the annotations option selects failed tests; then
dereference headCoverage!, skip when there are no failed-test annotations,
dereference summaryReport!.runReport and create the check. -/
def stFailedTestsAnn (env : Env) (s : RunState) : RunState :=
  let ex : Except StageExit Unit :=
    if !s.isHeadCoverageGenerated then Except.error StageExit.skipSignal
    else
      match s.optionsVal with
      | none => Except.error (StageExit.raised (Cause.nullDeref "options"))
      | some opts =>
        if !(opts.annotations == "all" || opts.annotations == "failed-tests") then
          Except.error StageExit.skipSignal
        else
          match s.headCoverageVal with
          | none => Except.error (StageExit.raised (Cause.nullDeref "headCoverage"))
          | some _ =>
            if env.failedAnnotationsCount == 0 then Except.error StageExit.skipSignal
            else
              match s.summaryReportVal with
              | none =>
                  Except.error (StageExit.raised (Cause.nullDeref "summaryReport"))
              | some _ => exitOf env.failedChecksCall
  let r := runStage "failedTestsAnnotations" s.dc (fun c => (c, [], ex))
  { s with dc := r.1, trace := s.trace ++ ["failedTestsAnnotations"] }

/-- Stage coverageAnnotations (run.ts lines 178-196): skip unless head
coverage was generated and the annotations option selects coverage; then
dereference headCoverage!, skip when there are no coverage annotations, and
create the check. -/
def stCoverageAnn (env : Env) (s : RunState) : RunState :=
  let ex : Except StageExit Unit :=
    if !s.isHeadCoverageGenerated then Except.error StageExit.skipSignal
    else
      match s.optionsVal with
      | none => Except.error (StageExit.raised (Cause.nullDeref "options"))
      | some opts =>
        if !(opts.annotations == "all" || opts.annotations == "coverage") then
          Except.error StageExit.skipSignal
        else
          match s.headCoverageVal with
          | none => Except.error (StageExit.raised (Cause.nullDeref "headCoverage"))
          | some _ =>
            if env.coverageAnnotationsCount == 0 then
              Except.error StageExit.skipSignal
            else exitOf env.coverageChecksCall
  let r := runStage "coverageAnnotations" s.dc (fun c => (c, [], ex))
  { s with dc := r.1, trace := s.trace ++ ["coverageAnnotations"] }

/-- The final step (run.ts lines 200-203): when the accumulated error list
is non-empty the run is reported failed to the host with the generic
localized failure message. -/
def stFinal (s : RunState) : RunState :=
  if 0 < s.dc.get.errors.length then { s with setFailedMsg := some (i18n "failed") }
  else s

/-- The stage sequence of run.ts after initialization, in source order. -/
def runChain (env : Env) (s : RunState) : RunState :=
  stCoverageAnn env (stFailedTestsAnn env (stPublishReport env
    (stGenerateReport env (stBaseCoverage env (stSwitchToBase env
      (stHeadCoverage env s))))))

/-- The post-initialization stages followed by the final failure decision. -/
def runTail (env : Env) (s : RunState) : RunState :=
  stFinal (runChain env s)

/-- The pipeline of run.ts: initialize, then — unless initialization
aborted the run — the fixed sequence of stages followed by the final
failure decision. -/
def run (env : Env) (dc0 : DataCollector JsonReport) : RunState :=
  if (stInitialize env (initState dc0)).abortedWith.isSome then
    stInitialize env (initState dc0)
  else runTail env (stInitialize env (initState dc0))

/-- The stage names of one full run; switchToBase is present only when its
surrounding conditional in run.ts holds. -/
def stageOrder (withSwitch : Bool) : List String :=
  ["initialize", "headCoverage"]
    ++ (if withSwitch then ["switchToBase"] else [])
    ++ ["baseCoverage", "generateReportContent", "publishReport",
        "failedTestsAnnotations", "coverageAnnotations"]

/-- An empty main collector, as created by the default argument of run. -/
def dcE : DataCollector JsonReport := ⟨[], []⟩

/-- A head coverage report used in concrete runs. -/
def covOk : JsonReport := ⟨"head coverage"⟩

/-- A base coverage report used in concrete runs. -/
def covBase : JsonReport := ⟨"base coverage"⟩

/-- A summary report used in concrete runs. -/
def rptOk : SummaryReport := ⟨"report text", "run report"⟩

/-- Options with a configured base coverage file and annotations off. -/
def optsWithBaseFile : Options :=
  ⟨some "coverage.json", some "base-coverage.json", "all", "token", "none"⟩

/-- Options with no base coverage file and annotations off. -/
def optsNoBaseFile : Options :=
  ⟨some "coverage.json", none, "all", "token", "none"⟩

/-- Options with no base coverage file and all annotations enabled. -/
def optsAllAnn : Options :=
  ⟨some "coverage.json", some "base-coverage.json", "all", "token", "all"⟩

/-- A fully successful pull-request run that invokes every stage. -/
def envOk : Env :=
  ⟨"pull_request", some "main", Except.ok optsNoBaseFile, ⟨[], Except.ok covOk⟩,
   fun _ => true, Except.ok (), ⟨[], Except.ok covBase⟩, Except.ok rptOk,
   Except.ok (), Except.ok (), 0, Except.ok (), 0, Except.ok ()⟩

/-- A run whose initialization throws. -/
def envInitFail : Env :=
  ⟨"push", none, Except.error "no token", ⟨[], Except.ok covOk⟩,
   fun _ => true, Except.ok (), ⟨[], Except.ok covBase⟩, Except.ok rptOk,
   Except.ok (), Except.ok (), 0, Except.ok (), 0, Except.ok ()⟩

/-- A push run with a configured base coverage file in which only the
baseCoverage stage body throws. -/
def envBaseThrows : Env :=
  ⟨"push", none, Except.ok optsWithBaseFile, ⟨[], Except.ok covOk⟩,
   fun _ => true, Except.ok (), ⟨[], Except.error "base coverage exploded"⟩,
   Except.ok rptOk, Except.ok (), Except.ok (), 0, Except.ok (), 0, Except.ok ()⟩

/-- A push run with a configured base coverage file in which every stage
succeeds; switchToBase is never invoked. -/
def envNoSwitch : Env :=
  ⟨"push", none, Except.ok optsWithBaseFile, ⟨[], Except.ok covOk⟩,
   fun _ => true, Except.ok (), ⟨[], Except.ok covBase⟩, Except.ok rptOk,
   Except.ok (), Except.ok (), 0, Except.ok (), 0, Except.ok ()⟩

/-- A run in which report generation throws while all annotations are
enabled and one failed-test annotation exists. -/
def envReportThrows : Env :=
  ⟨"push", none, Except.ok optsAllAnn, ⟨[], Except.ok covOk⟩,
   fun _ => true, Except.ok (), ⟨[], Except.ok covBase⟩,
   Except.error "createReport exploded", Except.ok (), Except.ok (),
   1, Except.ok (), 0, Except.ok ()⟩

/-- A run in which report generation throws and the annotations setting
enables no annotation stage; everything else succeeds. -/
def envReportThrowsQuiet : Env :=
  ⟨"push", none, Except.ok optsWithBaseFile, ⟨[], Except.ok covOk⟩,
   fun _ => true, Except.ok (), ⟨[], Except.ok covBase⟩,
   Except.error "createReport exploded", Except.ok (), Except.ok (),
   1, Except.ok (), 0, Except.ok ()⟩

/-- A push run with no base coverage file: switchToBase is invoked and its
body skips because the run is not a pull-request event. -/
def envSwitchSkips : Env :=
  ⟨"push", none, Except.ok optsNoBaseFile, ⟨[], Except.ok covOk⟩,
   fun _ => true, Except.ok (), ⟨[], Except.ok covBase⟩, Except.ok rptOk,
   Except.ok (), Except.ok (), 0, Except.ok (), 0, Except.ok ()⟩

/-- The guard of the switchToBase invocation in run.ts: no base coverage
file configured and the skip-step setting requires running the test
script. -/
def switchCond (env : Env) (s : RunState) : Bool :=
  match s.optionsVal with
  | none => false
  | some opts =>
      !truthyStr opts.baseCoverageFile && env.shouldRunTestScript opts.skipStep

/-- The skip condition inside the switchToBase stage body: not a
pull-request event, or no truthy base branch ref. -/
def switchBodySkips (env : Env) : Bool :=
  !(env.eventName == "pull_request") || !truthyStr env.pullRequest

theorem recordCoverageCauses_eq (l : List String) :
    ∀ c : DataCollector JsonReport,
      recordCoverageCauses c l =
        ⟨c.errors ++ l.map (fun m => ⟨"getCoverage", Cause.thrown m⟩), c.items⟩ := by
  induction l with
  | nil => intro c; simp [recordCoverageCauses]
  | cons m l ih =>
      intro c
      have h := ih (c.addError "getCoverage" (Cause.thrown m))
      simp [recordCoverageCauses] at h ⊢
      rw [h]
      simp [DataCollector.addError]

theorem stInitialize_frame (env : Env) (s : RunState) :
    ∃ t v, stInitialize env s =
      { s with dc := ⟨s.dc.errors ++ t, s.dc.items⟩,
               trace := s.trace ++ ["initialize"],
               isInitialized := Option.isSome v, optionsVal := v,
               abortedWith := if Option.isSome v then s.abortedWith
                              else some "Initialization failed." } ∧
      (∀ e ∈ t, e.stage = "initialize" ∧ ∃ m, e.cause = Cause.thrown m) ∧
      (∀ opts, env.getOptionsCall = Except.ok opts → t = [] ∧ v = some opts) ∧
      (∀ m, env.getOptionsCall = Except.error m →
        t = [⟨"initialize", Cause.thrown m⟩] ∧ v = none) := by
  cases h : env.getOptionsCall with
  | ok opts =>
      refine ⟨[], some opts, ?_, by simp, by simp [h], by simp [h]⟩
      simp [stInitialize, runStage, exitOf, h]
  | error m =>
      refine ⟨[⟨"initialize", Cause.thrown m⟩], none, ?_, ?_, by simp [h], by simp [h]⟩
      · simp [stInitialize, runStage, exitOf, h, DataCollector.addError]
      · intro e he
        simp at he
        subst he
        exact ⟨rfl, m, rfl⟩

theorem stHeadCoverage_frame (env : Env) (s : RunState) :
    ∃ t v, stHeadCoverage env s =
      { s with dc := ⟨s.dc.errors ++ t, s.dc.items ++ v.toList⟩,
               trace := s.trace ++ ["headCoverage"],
               isHeadCoverageGenerated := Option.isSome v, headCoverageVal := v } ∧
      (∀ e ∈ t, (e.stage = "headCoverage" ∨ e.stage = "getCoverage") ∧
        ∃ m, e.cause = Cause.thrown m) ∧
      (∀ hc, env.headCoverageCall.recordedCauses = [] →
        env.headCoverageCall.result = Except.ok hc → t = [] ∧ v = some hc) := by
  cases h : env.headCoverageCall.result with
  | ok hc =>
      refine ⟨(env.headCoverageCall.recordedCauses).map
          (fun m => ⟨"getCoverage", Cause.thrown m⟩), some hc, ?_, ?_, ?_⟩
      · simp [stHeadCoverage, runStage, exitOf, h, recordCoverageCauses_eq,
          DataCollector.add]
      · intro e he
        simp [List.mem_map] at he
        obtain ⟨m, _, rfl⟩ := he
        exact ⟨Or.inr rfl, m, rfl⟩
      · intro hc' hrec hres
        cases hres
        simp [hrec]
  | error m =>
      refine ⟨(env.headCoverageCall.recordedCauses).map
          (fun m => ⟨"getCoverage", Cause.thrown m⟩)
          ++ [⟨"headCoverage", Cause.thrown m⟩], none, ?_, ?_, ?_⟩
      · simp [stHeadCoverage, runStage, exitOf, h, recordCoverageCauses_eq,
          DataCollector.addError]
      · intro e he
        simp [List.mem_map] at he
        rcases he with ⟨m', _, rfl⟩ | rfl
        · exact ⟨Or.inr rfl, m', rfl⟩
        · exact ⟨Or.inl rfl, m, rfl⟩
      · intro hc' _ hres
        simp at hres

theorem stSwitchToBase_frame (env : Env) (s : RunState) :
    ∃ t sw outc, stSwitchToBase env s =
      { s with dc := ⟨s.dc.errors ++ t, s.dc.items⟩,
               trace := s.trace ++ (if switchCond env s then ["switchToBase"] else []),
               isSwitched := sw, switchToBaseOutcome := outc } ∧
      (∀ e ∈ t, e.stage = "switchToBase" ∧ ∃ m, e.cause = Cause.thrown m) ∧
      (switchCond env s = false →
        t = [] ∧ sw = s.isSwitched ∧ outc = s.switchToBaseOutcome) ∧
      (switchCond env s = true → switchBodySkips env = true →
        t = [] ∧ sw = false ∧ outc = some (false, none)) ∧
      (switchCond env s = true → switchBodySkips env = false →
        env.switchBranchCall = Except.ok () →
        t = [] ∧ sw = true ∧ outc = some (true, some ())) := by
  cases ho : s.optionsVal with
  | none =>
      have hc : switchCond env s = false := by simp [switchCond, ho]
      refine ⟨[], s.isSwitched, s.switchToBaseOutcome, ?_, by simp,
        by simp, by simp [hc], by simp [hc]⟩
      simp [stSwitchToBase, ho, hc]
      rw [← ho]
  | some opts =>
      cases hg : (!truthyStr opts.baseCoverageFile
          && env.shouldRunTestScript opts.skipStep) with
      | false =>
          have hc : switchCond env s = false := by simp [switchCond, ho, hg]
          refine ⟨[], s.isSwitched, s.switchToBaseOutcome, ?_, by simp,
            by simp, by simp [hc], by simp [hc]⟩
          simp [stSwitchToBase, ho, hg, hc]
          rw [← ho]
      | true =>
          have hc : switchCond env s = true := by simp [switchCond, ho, hg]
          cases hb : switchBodySkips env with
          | true =>
              refine ⟨[], false, some (false, none), ?_, by simp,
                by simp [hc], by simp, by simp [hb]⟩
              have hb' : (!(env.eventName == "pull_request")
                  || !truthyStr env.pullRequest) = true := hb
              simp [stSwitchToBase, ho, hg, hc, runStage, hb']
          | false =>
              have hb' : (!(env.eventName == "pull_request")
                  || !truthyStr env.pullRequest) = false := hb
              cases hs : env.switchBranchCall with
              | ok u =>
                  refine ⟨[], true, some (true, some ()), ?_, by simp,
                    by simp [hc], by simp [hb], by simp⟩
                  simp [stSwitchToBase, ho, hg, hc, runStage, hb', exitOf, hs]
              | error m =>
                  refine ⟨[⟨"switchToBase", Cause.thrown m⟩], false,
                    some (false, none), ?_, ?_, by simp [hc], by simp [hb],
                    by simp [hs]⟩
                  · simp [stSwitchToBase, ho, hg, hc, runStage, hb', exitOf, hs,
                      DataCollector.addError]
                  · intro e he
                    simp at he
                    subst he
                    exact ⟨rfl, m, rfl⟩

theorem stBaseCoverage_frame (env : Env) (s : RunState) :
    ∃ t v ig, stBaseCoverage env s =
      { s with dc := ⟨s.dc.errors ++ t, s.dc.items ++ v.toList⟩, ign := ig,
               trace := s.trace ++ ["baseCoverage"], baseCoverageVal := v } ∧
      (∀ e ∈ t, e.stage = "baseCoverage" ∧ ∃ m, e.cause = Cause.thrown m) ∧
      (s.isSwitched = false → t = [] ∧ v = none ∧ ig = ⟨[], []⟩) ∧
      (∀ bc, s.isSwitched = true → env.baseCoverageCall.result = Except.ok bc →
        t = [] ∧ v = some bc) ∧
      (∀ m, s.isSwitched = true → env.baseCoverageCall.result = Except.error m →
        t = [⟨"baseCoverage", Cause.thrown m⟩] ∧ v = none) := by
  cases hsw : s.isSwitched with
  | false =>
      refine ⟨[], none, ⟨[], []⟩, ?_, by simp, by simp, by simp [hsw], by simp [hsw]⟩
      simp [stBaseCoverage, hsw, runStage]
  | true =>
      cases h : env.baseCoverageCall.result with
      | ok bc =>
          refine ⟨[], some bc,
            recordCoverageCauses ⟨[], []⟩ env.baseCoverageCall.recordedCauses,
            ?_, by simp, by simp [hsw], ?_, by simp [h]⟩
          · simp [stBaseCoverage, hsw, runStage, exitOf, h, DataCollector.add]
          · intro bc' _ hres
            cases hres
            simp
      | error m =>
          refine ⟨[⟨"baseCoverage", Cause.thrown m⟩], none,
            recordCoverageCauses ⟨[], []⟩ env.baseCoverageCall.recordedCauses,
            ?_, ?_, by simp [hsw], by simp [h], by simp [h]⟩
          · simp [stBaseCoverage, hsw, runStage, exitOf, h, DataCollector.addError]
          · intro e he
            simp at he
            subst he
            exact ⟨rfl, m, rfl⟩

theorem stGenerateReport_frame (env : Env) (s : RunState) :
    ∃ t v, stGenerateReport env s =
      { s with dc := ⟨s.dc.errors ++ t, s.dc.items⟩,
               trace := s.trace ++ ["generateReportContent"],
               isReportContentGenerated := Option.isSome v,
               summaryReportVal := v } ∧
      (∀ e ∈ t, e.stage = "generateReportContent" ∧ ∃ m, e.cause = Cause.thrown m) ∧
      (∀ sr, env.createReportCall = Except.ok sr → t = [] ∧ v = some sr) ∧
      (∀ m, env.createReportCall = Except.error m →
        t = [⟨"generateReportContent", Cause.thrown m⟩] ∧ v = none) := by
  cases h : env.createReportCall with
  | ok sr =>
      refine ⟨[], some sr, ?_, by simp, by simp [h], by simp [h]⟩
      simp [stGenerateReport, runStage, exitOf, h]
  | error m =>
      refine ⟨[⟨"generateReportContent", Cause.thrown m⟩], none, ?_, ?_,
        by simp [h], by simp [h]⟩
      · simp [stGenerateReport, runStage, exitOf, h, DataCollector.addError]
      · intro e he
        simp at he
        subst he
        exact ⟨rfl, m, rfl⟩

theorem stPublishReport_frame (env : Env) (s : RunState) :
    ∃ t, stPublishReport env s =
      { s with dc := ⟨s.dc.errors ++ t, s.dc.items⟩,
               trace := s.trace ++ ["publishReport"] } ∧
      (∀ e ∈ t, e.stage = "publishReport" ∧ e.cause ≠ Cause.nullDeref "headCoverage") ∧
      ((s.isReportContentGenerated = true → Option.isSome s.summaryReportVal = true) →
        ∀ e ∈ t, e.cause ≠ Cause.nullDeref "summaryReport") ∧
      (s.isReportContentGenerated = false → t = []) ∧
      (∀ sr, s.summaryReportVal = some sr → (env.eventName == "pull_request") = false →
        env.commitReportCall = Except.ok () → t = []) := by
  cases hrg : s.isReportContentGenerated with
  | false =>
      refine ⟨[], ?_, by simp, by simp, by simp, by simp⟩
      simp [stPublishReport, hrg, runStage]
  | true =>
      cases hsr : s.summaryReportVal with
      | none =>
          refine ⟨[⟨"publishReport", Cause.nullDeref "summaryReport"⟩], ?_, ?_, ?_,
            by simp [hrg], by simp [hsr]⟩
          · simp [stPublishReport, hrg, hsr, runStage, DataCollector.addError]
          · intro e he
            simp at he
            subst he
            exact ⟨rfl, by simp⟩
          · intro hinv
            exact absurd (hinv rfl) (by simp [hsr])
      | some sr =>
          cases hev : env.eventName == "pull_request" with
          | true =>
              cases hpq : env.pullRequest with
              | none =>
                  refine ⟨[⟨"publishReport", Cause.nullDeref "pull_request"⟩], ?_, ?_,
                    ?_, by simp [hrg], by simp [hev]⟩
                  · simp [stPublishReport, hrg, hsr, hev, hpq, runStage,
                      DataCollector.addError]
                  · intro e he
                    simp at he
                    subst he
                    exact ⟨rfl, by simp⟩
                  · intro _ e he
                    simp at he
                    subst he
                    simp
              | some pr =>
                  cases hcall : env.prReportCall with
                  | ok u =>
                      refine ⟨[], ?_, by simp, by simp, by simp, by simp⟩
                      simp [stPublishReport, hrg, hsr, hev, hpq, runStage, exitOf,
                        hcall]
                  | error m =>
                      refine ⟨[⟨"publishReport", Cause.thrown m⟩], ?_, ?_, ?_,
                        by simp [hrg], by simp [hev]⟩
                      · simp [stPublishReport, hrg, hsr, hev, hpq, runStage, exitOf,
                          hcall, DataCollector.addError]
                      · intro e he
                        simp at he
                        subst he
                        exact ⟨rfl, by simp⟩
                      · intro _ e he
                        simp at he
                        subst he
                        simp
          | false =>
              cases hcall : env.commitReportCall with
              | ok u =>
                  refine ⟨[], ?_, by simp, by simp, by simp, by simp⟩
                  simp [stPublishReport, hrg, hsr, hev, runStage, exitOf, hcall]
              | error m =>
                  refine ⟨[⟨"publishReport", Cause.thrown m⟩], ?_, ?_, ?_,
                    by simp [hrg], by simp [hcall]⟩
                  · simp [stPublishReport, hrg, hsr, hev, runStage, exitOf, hcall,
                      DataCollector.addError]
                  · intro e he
                    simp at he
                    subst he
                    exact ⟨rfl, by simp⟩
                  · intro _ e he
                    simp at he
                    subst he
                    simp

theorem stFailedTestsAnn_frame (env : Env) (s : RunState) :
    ∃ t, stFailedTestsAnn env s =
      { s with dc := ⟨s.dc.errors ++ t, s.dc.items⟩,
               trace := s.trace ++ ["failedTestsAnnotations"] } ∧
      (∀ e ∈ t, e.stage = "failedTestsAnnotations") ∧
      ((s.isHeadCoverageGenerated = true → Option.isSome s.headCoverageVal = true) →
        ∀ e ∈ t, e.cause ≠ Cause.nullDeref "headCoverage") ∧
      (s.isHeadCoverageGenerated = false → t = []) ∧
      (∀ opts, s.optionsVal = some opts →
        (opts.annotations == "all" || opts.annotations == "failed-tests") = false →
        t = []) := by
  cases hg : s.isHeadCoverageGenerated with
  | false =>
      refine ⟨[], ?_, by simp, by simp, by simp, by simp⟩
      simp [stFailedTestsAnn, hg, runStage]
  | true =>
      cases ho : s.optionsVal with
      | none =>
          refine ⟨[⟨"failedTestsAnnotations", Cause.nullDeref "options"⟩], ?_, ?_,
            ?_, by simp [hg], by simp [ho]⟩
          · simp [stFailedTestsAnn, hg, ho, runStage, DataCollector.addError]
          · intro e he
            simp at he
            subst he
            rfl
          · intro _ e he
            simp at he
            subst he
            simp
      | some opts =>
          cases ha : (opts.annotations == "all" || opts.annotations == "failed-tests") with
          | false =>
              refine ⟨[], ?_, by simp, by simp, by simp, by simp⟩
              simp [stFailedTestsAnn, hg, ho, ha, runStage]
          | true =>
              cases hhv : s.headCoverageVal with
              | none =>
                  refine ⟨[⟨"failedTestsAnnotations", Cause.nullDeref "headCoverage"⟩],
                    ?_, ?_, ?_, by simp [hg], ?_⟩
                  · simp [stFailedTestsAnn, hg, ho, ha, hhv, runStage,
                      DataCollector.addError]
                  · intro e he
                    simp at he
                    subst he
                    rfl
                  · intro hinv
                    exact absurd (hinv rfl) (by simp [hhv])
                  · intro opts' ho' hcontra
                    cases ho'
                    rw [ha] at hcontra
                    cases hcontra
              | some hcv =>
                  cases hn : env.failedAnnotationsCount == 0 with
                  | true =>
                      refine ⟨[], ?_, by simp, by simp, by simp, by simp⟩
                      simp [stFailedTestsAnn, hg, ho, ha, hhv, hn, runStage]
                  | false =>
                      cases hsr : s.summaryReportVal with
                      | none =>
                          refine ⟨[⟨"failedTestsAnnotations",
                              Cause.nullDeref "summaryReport"⟩], ?_, ?_, ?_,
                            by simp [hg], ?_⟩
                          · simp [stFailedTestsAnn, hg, ho, ha, hhv, hn, hsr,
                              runStage, DataCollector.addError]
                          · intro e he
                            simp at he
                            subst he
                            rfl
                          · intro _ e he
                            simp at he
                            subst he
                            simp
                          · intro opts' ho' hcontra
                            cases ho'
                            rw [ha] at hcontra
                            cases hcontra
                      | some sr =>
                          cases hcall : env.failedChecksCall with
                          | ok u =>
                              refine ⟨[], ?_, by simp, by simp, by simp, by simp⟩
                              simp [stFailedTestsAnn, hg, ho, ha, hhv, hn, hsr,
                                runStage, exitOf, hcall]
                          | error m =>
                              refine ⟨[⟨"failedTestsAnnotations", Cause.thrown m⟩],
                                ?_, ?_, ?_, by simp [hg], ?_⟩
                              · simp [stFailedTestsAnn, hg, ho, ha, hhv, hn, hsr,
                                  runStage, exitOf, hcall, DataCollector.addError]
                              · intro e he
                                simp at he
                                subst he
                                rfl
                              · intro _ e he
                                simp at he
                                subst he
                                simp
                              · intro opts' ho' hcontra
                                cases ho'
                                rw [ha] at hcontra
                                cases hcontra

theorem stCoverageAnn_frame (env : Env) (s : RunState) :
    ∃ t, stCoverageAnn env s =
      { s with dc := ⟨s.dc.errors ++ t, s.dc.items⟩,
               trace := s.trace ++ ["coverageAnnotations"] } ∧
      (∀ e ∈ t, e.stage = "coverageAnnotations") ∧
      ((s.isHeadCoverageGenerated = true → Option.isSome s.headCoverageVal = true) →
        ∀ e ∈ t, e.cause ≠ Cause.nullDeref "headCoverage") ∧
      (s.isHeadCoverageGenerated = false → t = []) ∧
      (∀ opts, s.optionsVal = some opts →
        (opts.annotations == "all" || opts.annotations == "coverage") = false →
        t = []) := by
  cases hg : s.isHeadCoverageGenerated with
  | false =>
      refine ⟨[], ?_, by simp, by simp, by simp, by simp⟩
      simp [stCoverageAnn, hg, runStage]
  | true =>
      cases ho : s.optionsVal with
      | none =>
          refine ⟨[⟨"coverageAnnotations", Cause.nullDeref "options"⟩], ?_, ?_,
            ?_, by simp [hg], by simp [ho]⟩
          · simp [stCoverageAnn, hg, ho, runStage, DataCollector.addError]
          · intro e he
            simp at he
            subst he
            rfl
          · intro _ e he
            simp at he
            subst he
            simp
      | some opts =>
          cases ha : (opts.annotations == "all" || opts.annotations == "coverage") with
          | false =>
              refine ⟨[], ?_, by simp, by simp, by simp, by simp⟩
              simp [stCoverageAnn, hg, ho, ha, runStage]
          | true =>
              cases hhv : s.headCoverageVal with
              | none =>
                  refine ⟨[⟨"coverageAnnotations", Cause.nullDeref "headCoverage"⟩],
                    ?_, ?_, ?_, by simp [hg], ?_⟩
                  · simp [stCoverageAnn, hg, ho, ha, hhv, runStage,
                      DataCollector.addError]
                  · intro e he
                    simp at he
                    subst he
                    rfl
                  · intro hinv
                    exact absurd (hinv rfl) (by simp [hhv])
                  · intro opts' ho' hcontra
                    cases ho'
                    rw [ha] at hcontra
                    cases hcontra
              | some hcv =>
                  cases hn : env.coverageAnnotationsCount == 0 with
                  | true =>
                      refine ⟨[], ?_, by simp, by simp, by simp, by simp⟩
                      simp [stCoverageAnn, hg, ho, ha, hhv, hn, runStage]
                  | false =>
                      cases hcall : env.coverageChecksCall with
                      | ok u =>
                          refine ⟨[], ?_, by simp, by simp, by simp, by simp⟩
                          simp [stCoverageAnn, hg, ho, ha, hhv, hn, runStage,
                            exitOf, hcall]
                      | error m =>
                          refine ⟨[⟨"coverageAnnotations", Cause.thrown m⟩],
                            ?_, ?_, ?_, by simp [hg], ?_⟩
                          · simp [stCoverageAnn, hg, ho, ha, hhv, hn, runStage,
                              exitOf, hcall, DataCollector.addError]
                          · intro e he
                            simp at he
                            subst he
                            rfl
                          · intro _ e he
                            simp at he
                            subst he
                            simp
                          · intro opts' ho' hcontra
                            cases ho'
                            rw [ha] at hcontra
                            cases hcontra

theorem stFinal_eq (s : RunState) :
    stFinal s = { s with setFailedMsg :=
      if 0 < s.dc.errors.length then some (i18n "failed") else s.setFailedMsg } := by
  simp only [stFinal, DataCollector.get]
  by_cases h : 0 < s.dc.errors.length
  · rw [if_pos h, if_pos h]
  · rw [if_neg h, if_neg h]

theorem stInitialize_setFailedMsg (env : Env) (s : RunState) :
    (stInitialize env s).setFailedMsg = s.setFailedMsg := by
  obtain ⟨t, v, h, -⟩ := stInitialize_frame env s
  rw [h]

theorem stSwitchToBase_keeps (env : Env) (s : RunState) :
    (stSwitchToBase env s).setFailedMsg = s.setFailedMsg ∧
    (stSwitchToBase env s).abortedWith = s.abortedWith ∧
    (stSwitchToBase env s).isInitialized = s.isInitialized ∧
    (stSwitchToBase env s).optionsVal = s.optionsVal ∧
    (stSwitchToBase env s).isHeadCoverageGenerated = s.isHeadCoverageGenerated ∧
    (stSwitchToBase env s).headCoverageVal = s.headCoverageVal := by
  obtain ⟨t, sw, outc, h, -, -, -, -⟩ := stSwitchToBase_frame env s
  rw [h]
  exact ⟨rfl, rfl, rfl, rfl, rfl, rfl⟩

theorem runTail_eq (env : Env) (s : RunState) :
    runTail env s = { runChain env s with setFailedMsg :=
      if 0 < (runChain env s).dc.errors.length then some (i18n "failed")
      else (runChain env s).setFailedMsg } := by
  unfold runTail
  rw [stFinal_eq]

theorem runChain_keeps (env : Env) (s : RunState) :
    (runChain env s).setFailedMsg = s.setFailedMsg ∧
    (runChain env s).abortedWith = s.abortedWith ∧
    (runChain env s).isInitialized = s.isInitialized ∧
    (runChain env s).optionsVal = s.optionsVal := by
  obtain ⟨h1, h2, h3, h4, -, -⟩ := stSwitchToBase_keeps env (stHeadCoverage env s)
  unfold runChain
  refine ⟨?_, ?_, ?_, ?_⟩
  · show (stSwitchToBase env (stHeadCoverage env s)).setFailedMsg = s.setFailedMsg
    rw [h1]
    rfl
  · show (stSwitchToBase env (stHeadCoverage env s)).abortedWith = s.abortedWith
    rw [h2]
    rfl
  · show (stSwitchToBase env (stHeadCoverage env s)).isInitialized = s.isInitialized
    rw [h3]
    rfl
  · show (stSwitchToBase env (stHeadCoverage env s)).optionsVal = s.optionsVal
    rw [h4]
    rfl

theorem runChain_errors (env : Env) (s : RunState) :
    ∃ t, (runChain env s).dc.errors = s.dc.errors ++ t := by
  obtain ⟨t1, v1, h1, -, -⟩ := stHeadCoverage_frame env s
  have e1 : (stHeadCoverage env s).dc.errors = s.dc.errors ++ t1 := by rw [h1]
  obtain ⟨t2, sw2, o2, h2, -, -, -, -⟩ :=
    stSwitchToBase_frame env (stHeadCoverage env s)
  have e2 : (stSwitchToBase env (stHeadCoverage env s)).dc.errors =
      (stHeadCoverage env s).dc.errors ++ t2 := by rw [h2]
  obtain ⟨t3, v3, ig3, h3, -, -, -, -⟩ :=
    stBaseCoverage_frame env (stSwitchToBase env (stHeadCoverage env s))
  have e3 : (stBaseCoverage env (stSwitchToBase env (stHeadCoverage env s))).dc.errors =
      (stSwitchToBase env (stHeadCoverage env s)).dc.errors ++ t3 := by rw [h3]
  obtain ⟨t4, v4, h4, -, -, -⟩ := stGenerateReport_frame env
    (stBaseCoverage env (stSwitchToBase env (stHeadCoverage env s)))
  have e4 : (stGenerateReport env (stBaseCoverage env (stSwitchToBase env
      (stHeadCoverage env s)))).dc.errors =
      (stBaseCoverage env (stSwitchToBase env (stHeadCoverage env s))).dc.errors
        ++ t4 := by rw [h4]
  obtain ⟨t5, h5, -, -, -, -⟩ := stPublishReport_frame env
    (stGenerateReport env (stBaseCoverage env (stSwitchToBase env
      (stHeadCoverage env s))))
  have e5 : (stPublishReport env (stGenerateReport env (stBaseCoverage env
      (stSwitchToBase env (stHeadCoverage env s))))).dc.errors =
      (stGenerateReport env (stBaseCoverage env (stSwitchToBase env
        (stHeadCoverage env s)))).dc.errors ++ t5 := by rw [h5]
  obtain ⟨t6, h6, -, -, -, -⟩ := stFailedTestsAnn_frame env
    (stPublishReport env (stGenerateReport env (stBaseCoverage env
      (stSwitchToBase env (stHeadCoverage env s)))))
  have e6 : (stFailedTestsAnn env (stPublishReport env (stGenerateReport env
      (stBaseCoverage env (stSwitchToBase env (stHeadCoverage env s)))))).dc.errors =
      (stPublishReport env (stGenerateReport env (stBaseCoverage env
        (stSwitchToBase env (stHeadCoverage env s))))).dc.errors ++ t6 := by rw [h6]
  obtain ⟨t7, h7, -, -, -, -⟩ := stCoverageAnn_frame env
    (stFailedTestsAnn env (stPublishReport env (stGenerateReport env
      (stBaseCoverage env (stSwitchToBase env (stHeadCoverage env s))))))
  have e7 : (runChain env s).dc.errors =
      (stFailedTestsAnn env (stPublishReport env (stGenerateReport env
        (stBaseCoverage env (stSwitchToBase env (stHeadCoverage env s)))))).dc.errors
        ++ t7 := by
    unfold runChain
    rw [h7]
  refine ⟨t1 ++ (t2 ++ (t3 ++ (t4 ++ (t5 ++ (t6 ++ t7))))), ?_⟩
  rw [e7, e6, e5, e4, e3, e2, e1]
  simp [List.append_assoc]

/-- Claim C2: for every stage name, accumulator, and stage body whose
execution ends in a raised failure, runStage returns the outcome
(false, undefined) and appends exactly one error record made of the stage
name and the cause to the given accumulator; runStage is a total function
of the body outcome, so the failure never propagates out of it. -/
theorem runStage_absorbs_throw {β α : Type} (name : String)
    (c c' : DataCollector β) (log : List String) (cause : Cause) (body : BodyM β α)
    (h : body c = (c', log, Except.error (StageExit.raised cause))) :
    runStage name c body = (DataCollector.addError c' name cause, false, none) ∧
    (DataCollector.addError c' name cause).errors = c'.errors ++ [⟨name, cause⟩] := by
  constructor
  · unfold runStage
    rw [h]
  · rfl

/-- Witness for C2: a body that raises a concrete cause on a concrete
accumulator. -/
theorem runStage_absorbs_throw_witness :
    runStage "boom" dcE (throwNow (Cause.thrown "x") : BodyM JsonReport Unit) =
      (DataCollector.addError dcE "boom" (Cause.thrown "x"), false, none) ∧
    (DataCollector.addError dcE "boom" (Cause.thrown "x")).errors =
      dcE.errors ++ [⟨"boom", Cause.thrown "x"⟩] :=
  runStage_absorbs_throw "boom" dcE dcE [] (Cause.thrown "x")
    (throwNow (Cause.thrown "x")) rfl

/-- Claim C4: a stage body that invokes skip() as its first action yields
the outcome (false, undefined) from runStage, leaves the accumulator
untouched (zero error records added), and executes none of the remaining
body: the sequenced continuation contributes no accumulator change, no
logged effect, and no exit of its own. -/
theorem skip_first_aborts_body {β α γ : Type} (name : String)
    (c : DataCollector β) (rest : α → BodyM β γ) :
    runStage name c (bodySeq skipNow rest) = (c, false, none) ∧
    bodySeq skipNow rest c = (c, [], Except.error StageExit.skipSignal) :=
  ⟨rfl, rfl⟩

/-- Claim C9: the error list is append-only — add never touches it,
addError appends exactly one record, every stage execution only appends to
it, and a full run only appends to the collector it was given. -/
theorem errors_append_only (env : Env) (dc0 : DataCollector JsonReport) :
    (∀ (c : DataCollector JsonReport) (x : JsonReport), (c.add x).errors = c.errors) ∧
    (∀ (c : DataCollector JsonReport) (n : String) (e : Cause),
      (DataCollector.addError c n e).errors = c.errors ++ [⟨n, e⟩]) ∧
    (∀ s, ∃ t, (stInitialize env s).dc.errors = s.dc.errors ++ t) ∧
    (∀ s, ∃ t, (stHeadCoverage env s).dc.errors = s.dc.errors ++ t) ∧
    (∀ s, ∃ t, (stSwitchToBase env s).dc.errors = s.dc.errors ++ t) ∧
    (∀ s, ∃ t, (stBaseCoverage env s).dc.errors = s.dc.errors ++ t) ∧
    (∀ s, ∃ t, (stGenerateReport env s).dc.errors = s.dc.errors ++ t) ∧
    (∀ s, ∃ t, (stPublishReport env s).dc.errors = s.dc.errors ++ t) ∧
    (∀ s, ∃ t, (stFailedTestsAnn env s).dc.errors = s.dc.errors ++ t) ∧
    (∀ s, ∃ t, (stCoverageAnn env s).dc.errors = s.dc.errors ++ t) ∧
    (∃ t, (run env dc0).dc.errors = dc0.errors ++ t) := by
  refine ⟨fun c x => rfl, fun c n e => rfl, ?_, ?_, ?_, ?_, ?_, ?_, ?_, ?_, ?_⟩
  · intro s
    obtain ⟨t, v, h, -, -, -⟩ := stInitialize_frame env s
    exact ⟨t, by rw [h]⟩
  · intro s
    obtain ⟨t, v, h, -, -⟩ := stHeadCoverage_frame env s
    exact ⟨t, by rw [h]⟩
  · intro s
    obtain ⟨t, sw, outc, h, -, -, -, -⟩ := stSwitchToBase_frame env s
    exact ⟨t, by rw [h]⟩
  · intro s
    obtain ⟨t, v, ig, h, -, -, -, -⟩ := stBaseCoverage_frame env s
    exact ⟨t, by rw [h]⟩
  · intro s
    obtain ⟨t, v, h, -, -, -⟩ := stGenerateReport_frame env s
    exact ⟨t, by rw [h]⟩
  · intro s
    obtain ⟨t, h, -, -, -, -⟩ := stPublishReport_frame env s
    exact ⟨t, by rw [h]⟩
  · intro s
    obtain ⟨t, h, -, -, -, -⟩ := stFailedTestsAnn_frame env s
    exact ⟨t, by rw [h]⟩
  · intro s
    obtain ⟨t, h, -, -, -, -⟩ := stCoverageAnn_frame env s
    exact ⟨t, by rw [h]⟩
  · obtain ⟨t0, v0, h0, -, -, -⟩ := stInitialize_frame env (initState dc0)
    have e0 : (stInitialize env (initState dc0)).dc.errors = dc0.errors ++ t0 := by
      rw [h0]
      rfl
    cases hb : (stInitialize env (initState dc0)).abortedWith.isSome with
    | true =>
        have hrun : run env dc0 = stInitialize env (initState dc0) := by
          unfold run
          rw [if_pos hb]
        exact ⟨t0, by rw [hrun, e0]⟩
    | false =>
        have hb' : ¬((stInitialize env (initState dc0)).abortedWith.isSome = true) := by
          simp [hb]
        have hrun : run env dc0 = runTail env (stInitialize env (initState dc0)) := by
          unfold run
          rw [if_neg hb']
        obtain ⟨tc, ec⟩ := runChain_errors env (stInitialize env (initState dc0))
        refine ⟨t0 ++ tc, ?_⟩
        rw [hrun]
        have pdc : (runTail env (stInitialize env (initState dc0))).dc =
            (runChain env (stInitialize env (initState dc0))).dc := by
          rw [runTail_eq]
        rw [pdc, ec, e0]
        simp [List.append_assoc]

/-- Claim C3: a run aborts hard exactly when the initialization stage did
not complete or produced no options value, and an aborted run executed no
stage beyond initialize. -/
theorem init_failure_aborts (env : Env) (dc0 : DataCollector JsonReport) :
    ((run env dc0).abortedWith.isSome = true ↔
      ((run env dc0).isInitialized = false ∨ (run env dc0).optionsVal = none)) ∧
    ((run env dc0).abortedWith.isSome = true → (run env dc0).trace = ["initialize"]) := by
  obtain ⟨t0, v0, h0, -, -, -⟩ := stInitialize_frame env (initState dc0)
  cases v0 with
  | none =>
      have habort : (stInitialize env (initState dc0)).abortedWith =
          some "Initialization failed." := by
        rw [h0]
        rfl
      have hb : (stInitialize env (initState dc0)).abortedWith.isSome = true := by
        rw [habort]
        rfl
      have hrun : run env dc0 = stInitialize env (initState dc0) := by
        unfold run
        rw [if_pos hb]
      rw [hrun]
      constructor
      · constructor
        · intro _
          right
          rw [h0]
        · intro _
          exact hb
      · intro _
        rw [h0]
        simp [initState]
  | some opts =>
      have hnone : (stInitialize env (initState dc0)).abortedWith = none := by
        rw [h0]
        rfl
      have hb' : ¬((stInitialize env (initState dc0)).abortedWith.isSome = true) := by
        simp [hnone]
      have hrun : run env dc0 = runTail env (stInitialize env (initState dc0)) := by
        unfold run
        rw [if_neg hb']
      obtain ⟨k1, k2, k3, k4⟩ := runChain_keeps env (stInitialize env (initState dc0))
      have pAb : (runTail env (stInitialize env (initState dc0))).abortedWith = none := by
        rw [runTail_eq]
        show (runChain env (stInitialize env (initState dc0))).abortedWith = none
        rw [k2]
        exact hnone
      have pInit : (runTail env (stInitialize env (initState dc0))).isInitialized
          = true := by
        rw [runTail_eq]
        show (runChain env (stInitialize env (initState dc0))).isInitialized = true
        rw [k3, h0]
        rfl
      have pOpt : (runTail env (stInitialize env (initState dc0))).optionsVal
          = some opts := by
        rw [runTail_eq]
        show (runChain env (stInitialize env (initState dc0))).optionsVal = some opts
        rw [k4, h0]
      rw [hrun]
      constructor
      · constructor
        · intro habs
          rw [pAb] at habs
          simp at habs
        · rintro (hfalse | hnone2)
          · rw [pInit] at hfalse
            cases hfalse
          · rw [pOpt] at hnone2
            cases hnone2
      · intro habs
        rw [pAb] at habs
        simp at habs

/-- Witness for C3: a run whose initialization throws is aborted with no
stage after initialize executed. -/
theorem init_failure_aborts_witness :
    (run envInitFail dcE).abortedWith.isSome = true ∧
    (run envInitFail dcE).trace = ["initialize"] :=
  ⟨by decide, (init_failure_aborts envInitFail dcE).2 (by decide)⟩

/-- Claim C1: a run that reaches the final step marks the host process
failed with the generic localized message exactly when the main
error list of the main accumulator is non-empty at the end. -/
theorem host_failure_iff_errors (env : Env) (dc0 : DataCollector JsonReport)
    (h : (run env dc0).abortedWith = none) :
    ((run env dc0).setFailedMsg = some (i18n "failed") ↔
      (run env dc0).dc.errors ≠ []) := by
  cases hb : (stInitialize env (initState dc0)).abortedWith.isSome with
  | true =>
      have hrun : run env dc0 = stInitialize env (initState dc0) := by
        unfold run
        rw [if_pos hb]
      rw [hrun] at h
      rw [h] at hb
      simp at hb
  | false =>
      have hb' : ¬((stInitialize env (initState dc0)).abortedWith.isSome = true) := by
        simp [hb]
      have hrun : run env dc0 = runTail env (stInitialize env (initState dc0)) := by
        unfold run
        rw [if_neg hb']
      obtain ⟨k1, -, -, -⟩ := runChain_keeps env (stInitialize env (initState dc0))
      have pdc : (runTail env (stInitialize env (initState dc0))).dc =
          (runChain env (stInitialize env (initState dc0))).dc := by
        rw [runTail_eq]
      have pmsg : (runTail env (stInitialize env (initState dc0))).setFailedMsg =
          (if 0 < (runChain env (stInitialize env (initState dc0))).dc.errors.length
           then some (i18n "failed") else none) := by
        rw [runTail_eq]
        show (if 0 < (runChain env (stInitialize env (initState dc0))).dc.errors.length
              then some (i18n "failed")
              else (runChain env (stInitialize env (initState dc0))).setFailedMsg) = _
        rw [k1, stInitialize_setFailedMsg]
        rfl
      rw [hrun, pmsg, pdc]
      by_cases hlen :
          0 < (runChain env (stInitialize env (initState dc0))).dc.errors.length
      · rw [if_pos hlen]
        constructor
        · intro _
          exact List.ne_nil_of_length_pos hlen
        · intro _
          rfl
      · rw [if_neg hlen]
        constructor
        · intro hcontra
          exact absurd hcontra (by simp)
        · intro hne
          exact absurd (List.eq_nil_of_length_eq_zero
            (Nat.eq_zero_of_not_pos hlen)) hne

/-- Witness for C1: a fully successful run reaches the final step with an
empty error list and does not mark the host failed. -/
theorem host_failure_iff_errors_witness :
    (run envOk dcE).abortedWith = none ∧
    ((run envOk dcE).setFailedMsg = some (i18n "failed") ↔
      (run envOk dcE).dc.errors ≠ []) :=
  ⟨by decide, host_failure_iff_errors envOk dcE (by decide)⟩

/-- Counterexample to claim C6: two completed runs invoke different stage
sets — with a configured base coverage file the switchToBase stage is never
invoked at all, so the stage sequence is not fixed across runs and a stage
invocation IS conditionally omitted. -/
theorem stage_order_not_fixed_cex :
    (run envOk dcE).trace =
      ["initialize", "headCoverage", "switchToBase", "baseCoverage",
       "generateReportContent", "publishReport", "failedTestsAnnotations",
       "coverageAnnotations"] ∧
    (run envNoSwitch dcE).trace =
      ["initialize", "headCoverage", "baseCoverage", "generateReportContent",
       "publishReport", "failedTestsAnnotations", "coverageAnnotations"] ∧
    (run envNoSwitch dcE).abortedWith = none :=
  ⟨by decide, by decide, by decide⟩

/-- Claim C6 (amended): every run whose initialization completes invokes
the stages in one fixed order with no branching into alternate stage sets
and no retries, except that the switchToBase invocation itself is
conditionally omitted: it is executed exactly when no base coverage file is
configured and the skip-step setting requires running the test script;
stages that depend on an earlier non-completion self-skip via skip(). -/
theorem stage_order_conditional (env : Env) (dc0 : DataCollector JsonReport)
    (opts : Options) (h : env.getOptionsCall = Except.ok opts) :
    (run env dc0).trace = stageOrder
      (!truthyStr opts.baseCoverageFile && env.shouldRunTestScript opts.skipStep) := by
  obtain ⟨t0, v0, h0, -, hok, -⟩ := stInitialize_frame env (initState dc0)
  obtain ⟨ht0, hv0⟩ := hok opts h
  subst hv0
  have hnone : (stInitialize env (initState dc0)).abortedWith = none := by
    rw [h0]
    rfl
  have hb' : ¬((stInitialize env (initState dc0)).abortedWith.isSome = true) := by
    simp [hnone]
  have hrun : run env dc0 = runTail env (stInitialize env (initState dc0)) := by
    unfold run
    rw [if_neg hb']
  have ptr0 : (stInitialize env (initState dc0)).trace = ["initialize"] := by
    rw [h0]
    rfl
  obtain ⟨t1, v1, h1, -, -⟩ := stHeadCoverage_frame env (stInitialize env (initState dc0))
  have pv1 : (stHeadCoverage env (stInitialize env (initState dc0))).optionsVal
      = some opts := by
    rw [h1, h0]
  have tr1 : (stHeadCoverage env (stInitialize env (initState dc0))).trace =
      ["initialize"] ++ ["headCoverage"] := by
    rw [h1, ptr0]
  have hcnd : switchCond env (stHeadCoverage env (stInitialize env (initState dc0)))
      = (!truthyStr opts.baseCoverageFile && env.shouldRunTestScript opts.skipStep) := by
    unfold switchCond
    rw [pv1]
  obtain ⟨t2, sw2, o2, h2, -, -, -, -⟩ :=
    stSwitchToBase_frame env (stHeadCoverage env (stInitialize env (initState dc0)))
  rw [hcnd] at h2
  have tr2 : (stSwitchToBase env (stHeadCoverage env (stInitialize env
      (initState dc0)))).trace =
      ["initialize"] ++ ["headCoverage"]
        ++ (if (!truthyStr opts.baseCoverageFile
              && env.shouldRunTestScript opts.skipStep) then ["switchToBase"]
            else []) := by
    rw [h2, tr1]
  obtain ⟨t3, v3, ig3, h3, -, -, -, -⟩ := stBaseCoverage_frame env
    (stSwitchToBase env (stHeadCoverage env (stInitialize env (initState dc0))))
  obtain ⟨t4, v4, h4, -, -, -⟩ := stGenerateReport_frame env
    (stBaseCoverage env (stSwitchToBase env (stHeadCoverage env
      (stInitialize env (initState dc0)))))
  obtain ⟨t5, h5, -, -, -, -⟩ := stPublishReport_frame env
    (stGenerateReport env (stBaseCoverage env (stSwitchToBase env
      (stHeadCoverage env (stInitialize env (initState dc0))))))
  obtain ⟨t6, h6, -, -, -, -⟩ := stFailedTestsAnn_frame env
    (stPublishReport env (stGenerateReport env (stBaseCoverage env
      (stSwitchToBase env (stHeadCoverage env (stInitialize env (initState dc0)))))))
  obtain ⟨t7, h7, -, -, -, -⟩ := stCoverageAnn_frame env
    (stFailedTestsAnn env (stPublishReport env (stGenerateReport env
      (stBaseCoverage env (stSwitchToBase env (stHeadCoverage env
        (stInitialize env (initState dc0))))))))
  have ptr : (runTail env (stInitialize env (initState dc0))).trace =
      (runChain env (stInitialize env (initState dc0))).trace := by
    rw [runTail_eq]
  rw [hrun, ptr]
  show (stCoverageAnn env (stFailedTestsAnn env (stPublishReport env
    (stGenerateReport env (stBaseCoverage env (stSwitchToBase env
      (stHeadCoverage env (stInitialize env (initState dc0))))))))).trace = _
  rw [h7, h6, h5, h4, h3, tr2]
  cases hg : (!truthyStr opts.baseCoverageFile
      && env.shouldRunTestScript opts.skipStep) with
  | false => simp [stageOrder]
  | true => simp [stageOrder]

/-- Witness for the amended C6: a run with a configured base coverage file
follows the fixed order with switchToBase omitted. -/
theorem stage_order_conditional_witness :
    (run envNoSwitch dcE).trace = stageOrder
      (!truthyStr optsWithBaseFile.baseCoverageFile
        && envNoSwitch.shouldRunTestScript optsWithBaseFile.skipStep) :=
  stage_order_conditional envNoSwitch dcE optsWithBaseFile rfl

/-- Counterexample to claim C8: a run outside a pull-request event with no
base branch identified, but with a base coverage file configured — the
switch-to-base stage is never invoked (its outcome does not exist, rather
than being (false, undefined)), isSwitched remains true, and the dependent
base-coverage stage does NOT skip: it produces base coverage. -/
theorem switch_skip_propagates_cex :
    (envNoSwitch.eventName == "pull_request") = false ∧
    truthyStr envNoSwitch.pullRequest = false ∧
    (run envNoSwitch dcE).switchToBaseOutcome = none ∧
    (run envNoSwitch dcE).isSwitched = true ∧
    (run envNoSwitch dcE).baseCoverageVal = some covBase :=
  ⟨by decide, by decide, by decide, by decide, by decide⟩

/-- Claim C8 (amended): in a run that is not a pull-request event and has
no truthy base branch ref, PROVIDED the switchToBase invocation is reached
at all (no base coverage file configured and the skip-step setting requires
running the test script), the switchToBase stage body calls skip() and its
outcome is (false, undefined); the base-coverage stage then observes
isSwitched = false, itself skips, produces no base coverage, and no error
is recorded for either stage. -/
theorem switch_skip_propagates (env : Env) (dc0 : DataCollector JsonReport)
    (opts : Options)
    (h1 : env.getOptionsCall = Except.ok opts)
    (h2 : truthyStr opts.baseCoverageFile = false)
    (h3 : env.shouldRunTestScript opts.skipStep = true)
    (h4 : (env.eventName == "pull_request") = false)
    (h5 : truthyStr env.pullRequest = false) :
    (run env dc0).switchToBaseOutcome = some (false, none) ∧
    (run env dc0).isSwitched = false ∧
    (run env dc0).baseCoverageVal = none ∧
    ∃ t, (run env dc0).dc.errors = dc0.errors ++ t ∧
      t.all (fun e => !(e.stage == "switchToBase") && !(e.stage == "baseCoverage"))
        = true := by
  obtain ⟨t0, v0, h0, p0, hok, -⟩ := stInitialize_frame env (initState dc0)
  obtain ⟨ht0, hv0⟩ := hok opts h1
  subst hv0
  subst ht0
  have hnone : (stInitialize env (initState dc0)).abortedWith = none := by
    rw [h0]
    rfl
  have hb' : ¬((stInitialize env (initState dc0)).abortedWith.isSome = true) := by
    simp [hnone]
  have hrun : run env dc0 = runTail env (stInitialize env (initState dc0)) := by
    unfold run
    rw [if_neg hb']
  obtain ⟨t1, v1, h1e, p1, -⟩ :=
    stHeadCoverage_frame env (stInitialize env (initState dc0))
  have pv1 : (stHeadCoverage env (stInitialize env (initState dc0))).optionsVal
      = some opts := by
    rw [h1e, h0]
  have hcnd : switchCond env (stHeadCoverage env (stInitialize env (initState dc0)))
      = true := by
    unfold switchCond
    rw [pv1]
    show (!truthyStr opts.baseCoverageFile && env.shouldRunTestScript opts.skipStep)
      = true
    rw [h2, h3]
    rfl
  have hbs : switchBodySkips env = true := by
    unfold switchBodySkips
    rw [h4]
    rfl
  obtain ⟨t2, sw2, o2, h2e, -, -, hskip, -⟩ :=
    stSwitchToBase_frame env (stHeadCoverage env (stInitialize env (initState dc0)))
  obtain ⟨ht2, hsw2, ho2⟩ := hskip hcnd hbs
  subst ht2
  subst hsw2
  subst ho2
  obtain ⟨t3, v3, ig3, h3e, -, hbskip, -, -⟩ := stBaseCoverage_frame env
    (stSwitchToBase env (stHeadCoverage env (stInitialize env (initState dc0))))
  have hsw3 : (stSwitchToBase env (stHeadCoverage env (stInitialize env
      (initState dc0)))).isSwitched = false := by
    rw [h2e]
  obtain ⟨ht3, hv3, hig3⟩ := hbskip hsw3
  subst ht3
  subst hv3
  obtain ⟨t4, v4, h4e, p4, -, -⟩ := stGenerateReport_frame env
    (stBaseCoverage env (stSwitchToBase env (stHeadCoverage env
      (stInitialize env (initState dc0)))))
  obtain ⟨t5, h5e, p5, -, -, -⟩ := stPublishReport_frame env
    (stGenerateReport env (stBaseCoverage env (stSwitchToBase env
      (stHeadCoverage env (stInitialize env (initState dc0))))))
  obtain ⟨t6, h6e, p6, -, -, -⟩ := stFailedTestsAnn_frame env
    (stPublishReport env (stGenerateReport env (stBaseCoverage env
      (stSwitchToBase env (stHeadCoverage env (stInitialize env (initState dc0)))))))
  obtain ⟨t7, h7e, p7, -, -, -⟩ := stCoverageAnn_frame env
    (stFailedTestsAnn env (stPublishReport env (stGenerateReport env
      (stBaseCoverage env (stSwitchToBase env (stHeadCoverage env
        (stInitialize env (initState dc0))))))))
  have e0 : (stInitialize env (initState dc0)).dc.errors = dc0.errors := by
    rw [h0]
    simp [initState]
  have e1 : (stHeadCoverage env (stInitialize env (initState dc0))).dc.errors =
      (stInitialize env (initState dc0)).dc.errors ++ t1 := by rw [h1e]
  have e2 : (stSwitchToBase env (stHeadCoverage env (stInitialize env
      (initState dc0)))).dc.errors =
      (stHeadCoverage env (stInitialize env (initState dc0))).dc.errors := by
    rw [h2e]
    simp
  have e3 : (stBaseCoverage env (stSwitchToBase env (stHeadCoverage env
      (stInitialize env (initState dc0))))).dc.errors =
      (stSwitchToBase env (stHeadCoverage env (stInitialize env
        (initState dc0)))).dc.errors := by
    rw [h3e]
    simp
  have e4 : (stGenerateReport env (stBaseCoverage env (stSwitchToBase env
      (stHeadCoverage env (stInitialize env (initState dc0)))))).dc.errors =
      (stBaseCoverage env (stSwitchToBase env (stHeadCoverage env
        (stInitialize env (initState dc0))))).dc.errors ++ t4 := by rw [h4e]
  have e5 : (stPublishReport env (stGenerateReport env (stBaseCoverage env
      (stSwitchToBase env (stHeadCoverage env (stInitialize env
        (initState dc0))))))).dc.errors =
      (stGenerateReport env (stBaseCoverage env (stSwitchToBase env
        (stHeadCoverage env (stInitialize env (initState dc0)))))).dc.errors
        ++ t5 := by rw [h5e]
  have e6 : (stFailedTestsAnn env (stPublishReport env (stGenerateReport env
      (stBaseCoverage env (stSwitchToBase env (stHeadCoverage env
        (stInitialize env (initState dc0)))))))).dc.errors =
      (stPublishReport env (stGenerateReport env (stBaseCoverage env
        (stSwitchToBase env (stHeadCoverage env (stInitialize env
          (initState dc0))))))).dc.errors ++ t6 := by rw [h6e]
  have e7 : (runChain env (stInitialize env (initState dc0))).dc.errors =
      (stFailedTestsAnn env (stPublishReport env (stGenerateReport env
        (stBaseCoverage env (stSwitchToBase env (stHeadCoverage env
          (stInitialize env (initState dc0)))))))).dc.errors ++ t7 := by
    unfold runChain
    rw [h7e]
  refine ⟨?_, ?_, ?_, ?_⟩
  · rw [hrun, runTail_eq]
    have q : (runChain env (stInitialize env (initState dc0))).switchToBaseOutcome =
        (stSwitchToBase env (stHeadCoverage env (stInitialize env
          (initState dc0)))).switchToBaseOutcome := rfl
    show (runChain env (stInitialize env (initState dc0))).switchToBaseOutcome
      = some (false, none)
    rw [q, h2e]
  · rw [hrun, runTail_eq]
    have q : (runChain env (stInitialize env (initState dc0))).isSwitched =
        (stSwitchToBase env (stHeadCoverage env (stInitialize env
          (initState dc0)))).isSwitched := rfl
    show (runChain env (stInitialize env (initState dc0))).isSwitched = false
    rw [q, h2e]
  · rw [hrun, runTail_eq]
    have q : (runChain env (stInitialize env (initState dc0))).baseCoverageVal =
        (stBaseCoverage env (stSwitchToBase env (stHeadCoverage env
          (stInitialize env (initState dc0))))).baseCoverageVal := rfl
    show (runChain env (stInitialize env (initState dc0))).baseCoverageVal = none
    rw [q, h3e]
  · refine ⟨t1 ++ (t4 ++ (t5 ++ (t6 ++ t7))), ?_, ?_⟩
    · rw [hrun, runTail_eq]
      show (runChain env (stInitialize env (initState dc0))).dc.errors = _
      rw [e7, e6, e5, e4, e3, e2, e1, e0]
      simp [List.append_assoc]
    · rw [List.all_eq_true]
      intro e he
      simp only [List.mem_append] at he
      have tagsOk : ∀ (x : String), x = "initialize" ∨ x = "headCoverage" ∨
          x = "getCoverage" ∨ x = "generateReportContent" ∨ x = "publishReport" ∨
          x = "failedTestsAnnotations" ∨ x = "coverageAnnotations" →
          (!(x == "switchToBase") && !(x == "baseCoverage")) = true := by
        rintro x (rfl | rfl | rfl | rfl | rfl | rfl | rfl) <;> rfl
      rcases he with h | h | h | h | h
      · rcases p1 e h with ⟨hs | hs, -⟩
        · exact tagsOk e.stage (Or.inr (Or.inl hs))
        · exact tagsOk e.stage (Or.inr (Or.inr (Or.inl hs)))
      · obtain ⟨hs, -⟩ := p4 e h
        exact tagsOk e.stage (Or.inr (Or.inr (Or.inr (Or.inl hs))))
      · obtain ⟨hs, -⟩ := p5 e h
        exact tagsOk e.stage (Or.inr (Or.inr (Or.inr (Or.inr (Or.inl hs)))))
      · have hs := p6 e h
        exact tagsOk e.stage (Or.inr (Or.inr (Or.inr (Or.inr (Or.inr (Or.inl hs))))))
      · have hs := p7 e h
        exact tagsOk e.stage
          (Or.inr (Or.inr (Or.inr (Or.inr (Or.inr (Or.inr hs))))))

/-- Witness for the amended C8: a push run with no base coverage file
configured reaches switchToBase, which skips; base coverage then skips. -/
theorem switch_skip_propagates_witness :
    (run envSwitchSkips dcE).switchToBaseOutcome = some (false, none) ∧
    (run envSwitchSkips dcE).isSwitched = false ∧
    (run envSwitchSkips dcE).baseCoverageVal = none ∧
    ∃ t, (run envSwitchSkips dcE).dc.errors = dcE.errors ++ t ∧
      t.all (fun e => !(e.stage == "switchToBase") && !(e.stage == "baseCoverage"))
        = true :=
  switch_skip_propagates envSwitchSkips dcE optsNoBaseFile rfl (by decide)
    (by decide) (by decide) (by decide)

/-- Counterexample to claim C7: a run in which the report-generation stage
throws once yet the final error list has length 2, because the failed-tests
annotation stage — enabled and holding failed annotations — dereferences the
missing summary report and fails too. -/
theorem report_throw_single_error_cex :
    envReportThrows.createReportCall = Except.error "createReport exploded" ∧
    (run envReportThrows dcE).dc.errors =
      [⟨"generateReportContent", Cause.thrown "createReport exploded"⟩,
       ⟨"failedTestsAnnotations", Cause.nullDeref "summaryReport"⟩] ∧
    (run envReportThrows dcE).dc.errors.length = 2 :=
  ⟨rfl, by decide, by decide⟩

/-- Claim C7 (amended): in a run in which the report-generation stage
throws and every other stage completes or skips without appending an error
(coverage collection succeeds cleanly, branch switching succeeds if
reached, and the annotations setting enables no annotation stage), exactly
one error record tagged generateReportContent is appended; the publish
stage observes isReportContentGenerated = false and skips, adding no
further error; the run ends with only that error and the host is marked
failed with the generic localized message. -/
theorem report_throw_single_error (env : Env) (dc0 : DataCollector JsonReport)
    (opts : Options) (hc : JsonReport) (bc : JsonReport) (m : String)
    (h1 : env.getOptionsCall = Except.ok opts)
    (h2 : env.headCoverageCall.recordedCauses = [])
    (h3 : env.headCoverageCall.result = Except.ok hc)
    (h4 : env.switchBranchCall = Except.ok ())
    (h5 : env.baseCoverageCall.result = Except.ok bc)
    (h6 : env.createReportCall = Except.error m)
    (h7 : (opts.annotations == "all" || opts.annotations == "failed-tests") = false)
    (h8 : (opts.annotations == "all" || opts.annotations == "coverage") = false) :
    (run env dc0).dc.errors =
      dc0.errors ++ [⟨"generateReportContent", Cause.thrown m⟩] ∧
    (run env dc0).isReportContentGenerated = false ∧
    (run env dc0).summaryReportVal = none ∧
    (run env dc0).setFailedMsg = some (i18n "failed") := by
  obtain ⟨t0, v0, h0, -, hok, -⟩ := stInitialize_frame env (initState dc0)
  obtain ⟨ht0, hv0⟩ := hok opts h1
  subst hv0
  subst ht0
  have hnone : (stInitialize env (initState dc0)).abortedWith = none := by
    rw [h0]
    rfl
  have hb' : ¬((stInitialize env (initState dc0)).abortedWith.isSome = true) := by
    simp [hnone]
  have hrun : run env dc0 = runTail env (stInitialize env (initState dc0)) := by
    unfold run
    rw [if_neg hb']
  obtain ⟨t1, v1, h1e, -, hok1⟩ :=
    stHeadCoverage_frame env (stInitialize env (initState dc0))
  obtain ⟨ht1, hv1⟩ := hok1 hc h2 h3
  subst ht1
  subst hv1
  have pv1 : (stHeadCoverage env (stInitialize env (initState dc0))).optionsVal
      = some opts := by
    rw [h1e, h0]
  obtain ⟨t2, sw2, o2, h2e, -, hcondF, hcondS, hcondO⟩ :=
    stSwitchToBase_frame env (stHeadCoverage env (stInitialize env (initState dc0)))
  have ht2 : t2 = [] := by
    cases hcnd : switchCond env (stHeadCoverage env (stInitialize env (initState dc0))) with
    | false => exact (hcondF hcnd).1
    | true =>
        cases hbs : switchBodySkips env with
        | true => exact (hcondS hcnd hbs).1
        | false => exact (hcondO hcnd hbs h4).1
  subst ht2
  obtain ⟨t3, v3, ig3, h3e, -, hbskip, hbok, -⟩ := stBaseCoverage_frame env
    (stSwitchToBase env (stHeadCoverage env (stInitialize env (initState dc0))))
  have hsw3 : (stSwitchToBase env (stHeadCoverage env (stInitialize env
      (initState dc0)))).isSwitched = sw2 := by
    rw [h2e]
  have ht3 : t3 = [] := by
    cases hs2 : sw2 with
    | false =>
        refine (hbskip ?_).1
        rw [hsw3, hs2]
    | true =>
        refine (hbok bc ?_ h5).1
        rw [hsw3, hs2]
  subst ht3
  obtain ⟨t4, v4, h4e, -, -, herr4⟩ := stGenerateReport_frame env
    (stBaseCoverage env (stSwitchToBase env (stHeadCoverage env
      (stInitialize env (initState dc0)))))
  obtain ⟨ht4, hv4⟩ := herr4 m h6
  subst ht4
  subst hv4
  obtain ⟨t5, h5e, -, -, hskip5, -⟩ := stPublishReport_frame env
    (stGenerateReport env (stBaseCoverage env (stSwitchToBase env
      (stHeadCoverage env (stInitialize env (initState dc0))))))
  have hrg5 : (stGenerateReport env (stBaseCoverage env (stSwitchToBase env
      (stHeadCoverage env (stInitialize env
        (initState dc0)))))).isReportContentGenerated = false := by
    rw [h4e]
    rfl
  have ht5 : t5 = [] := hskip5 hrg5
  subst ht5
  obtain ⟨t6, h6e, -, -, -, hann6⟩ := stFailedTestsAnn_frame env
    (stPublishReport env (stGenerateReport env (stBaseCoverage env
      (stSwitchToBase env (stHeadCoverage env (stInitialize env (initState dc0)))))))
  have pv6 : (stPublishReport env (stGenerateReport env (stBaseCoverage env
      (stSwitchToBase env (stHeadCoverage env (stInitialize env
        (initState dc0))))))).optionsVal = some opts := by
    have q : (stPublishReport env (stGenerateReport env (stBaseCoverage env
        (stSwitchToBase env (stHeadCoverage env (stInitialize env
          (initState dc0))))))).optionsVal =
        (stSwitchToBase env (stHeadCoverage env (stInitialize env
          (initState dc0)))).optionsVal := rfl
    rw [q, h2e, pv1]
  have ht6 : t6 = [] := hann6 opts pv6 h7
  subst ht6
  obtain ⟨t7, h7e, -, -, -, hann7⟩ := stCoverageAnn_frame env
    (stFailedTestsAnn env (stPublishReport env (stGenerateReport env
      (stBaseCoverage env (stSwitchToBase env (stHeadCoverage env
        (stInitialize env (initState dc0))))))))
  have pv7 : (stFailedTestsAnn env (stPublishReport env (stGenerateReport env
      (stBaseCoverage env (stSwitchToBase env (stHeadCoverage env
        (stInitialize env (initState dc0)))))))).optionsVal = some opts := by
    have q : (stFailedTestsAnn env (stPublishReport env (stGenerateReport env
        (stBaseCoverage env (stSwitchToBase env (stHeadCoverage env
          (stInitialize env (initState dc0)))))))).optionsVal =
        (stSwitchToBase env (stHeadCoverage env (stInitialize env
          (initState dc0)))).optionsVal := rfl
    rw [q, h2e, pv1]
  have ht7 : t7 = [] := hann7 opts pv7 h8
  subst ht7
  have e0 : (stInitialize env (initState dc0)).dc.errors = dc0.errors := by
    rw [h0]
    simp [initState]
  have e1 : (stHeadCoverage env (stInitialize env (initState dc0))).dc.errors =
      (stInitialize env (initState dc0)).dc.errors := by
    rw [h1e]
    simp
  have e2 : (stSwitchToBase env (stHeadCoverage env (stInitialize env
      (initState dc0)))).dc.errors =
      (stHeadCoverage env (stInitialize env (initState dc0))).dc.errors := by
    rw [h2e]
    simp
  have e3 : (stBaseCoverage env (stSwitchToBase env (stHeadCoverage env
      (stInitialize env (initState dc0))))).dc.errors =
      (stSwitchToBase env (stHeadCoverage env (stInitialize env
        (initState dc0)))).dc.errors := by
    rw [h3e]
    simp
  have e4 : (stGenerateReport env (stBaseCoverage env (stSwitchToBase env
      (stHeadCoverage env (stInitialize env (initState dc0)))))).dc.errors =
      (stBaseCoverage env (stSwitchToBase env (stHeadCoverage env
        (stInitialize env (initState dc0))))).dc.errors
        ++ [⟨"generateReportContent", Cause.thrown m⟩] := by rw [h4e]
  have e5 : (stPublishReport env (stGenerateReport env (stBaseCoverage env
      (stSwitchToBase env (stHeadCoverage env (stInitialize env
        (initState dc0))))))).dc.errors =
      (stGenerateReport env (stBaseCoverage env (stSwitchToBase env
        (stHeadCoverage env (stInitialize env (initState dc0)))))).dc.errors := by
    rw [h5e]
    simp
  have e6 : (stFailedTestsAnn env (stPublishReport env (stGenerateReport env
      (stBaseCoverage env (stSwitchToBase env (stHeadCoverage env
        (stInitialize env (initState dc0)))))))).dc.errors =
      (stPublishReport env (stGenerateReport env (stBaseCoverage env
        (stSwitchToBase env (stHeadCoverage env (stInitialize env
          (initState dc0))))))).dc.errors := by
    rw [h6e]
    simp
  have e7 : (runChain env (stInitialize env (initState dc0))).dc.errors =
      (stFailedTestsAnn env (stPublishReport env (stGenerateReport env
        (stBaseCoverage env (stSwitchToBase env (stHeadCoverage env
          (stInitialize env (initState dc0)))))))).dc.errors := by
    unfold runChain
    rw [h7e]
    simp
  have echain : (runChain env (stInitialize env (initState dc0))).dc.errors =
      dc0.errors ++ [⟨"generateReportContent", Cause.thrown m⟩] := by
    rw [e7, e6, e5, e4, e3, e2, e1, e0]
  refine ⟨?_, ?_, ?_, ?_⟩
  · rw [hrun, runTail_eq]
    show (runChain env (stInitialize env (initState dc0))).dc.errors = _
    exact echain
  · rw [hrun, runTail_eq]
    have q : (runChain env (stInitialize env (initState dc0))).isReportContentGenerated =
        (stGenerateReport env (stBaseCoverage env (stSwitchToBase env
          (stHeadCoverage env (stInitialize env
            (initState dc0)))))).isReportContentGenerated := rfl
    show (runChain env (stInitialize env (initState dc0))).isReportContentGenerated
      = false
    rw [q, h4e]
    rfl
  · rw [hrun, runTail_eq]
    have q : (runChain env (stInitialize env (initState dc0))).summaryReportVal =
        (stGenerateReport env (stBaseCoverage env (stSwitchToBase env
          (stHeadCoverage env (stInitialize env
            (initState dc0)))))).summaryReportVal := rfl
    show (runChain env (stInitialize env (initState dc0))).summaryReportVal = none
    rw [q, h4e]
  · rw [hrun, runTail_eq]
    show (if 0 < (runChain env (stInitialize env (initState dc0))).dc.errors.length
          then some (i18n "failed")
          else (runChain env (stInitialize env (initState dc0))).setFailedMsg)
      = some (i18n "failed")
    rw [if_pos]
    rw [echain]
    simp

/-- Witness for the amended C7: report generation throws while every other
stage completes or skips cleanly; exactly one error is recorded and the
host is marked failed. -/
theorem report_throw_single_error_witness :
    (run envReportThrowsQuiet dcE).dc.errors =
      dcE.errors ++ [⟨"generateReportContent",
        Cause.thrown "createReport exploded"⟩] ∧
    (run envReportThrowsQuiet dcE).isReportContentGenerated = false ∧
    (run envReportThrowsQuiet dcE).summaryReportVal = none ∧
    (run envReportThrowsQuiet dcE).setFailedMsg = some (i18n "failed") :=
  report_throw_single_error envReportThrowsQuiet dcE optsWithBaseFile covOk covBase
    "createReport exploded" rfl rfl rfl rfl rfl rfl (by decide) (by decide)

theorem stBaseCoverage_swap (env : Env) (rs : List String) (s : RunState) :
    ∃ ig, stBaseCoverage { env with baseCoverageCall :=
        ⟨rs, env.baseCoverageCall.result⟩ } s
      = { stBaseCoverage env s with ign := ig } := by
  cases hsw : s.isSwitched with
  | false =>
      refine ⟨⟨[], []⟩, ?_⟩
      simp [stBaseCoverage, hsw, runStage]
  | true =>
      refine ⟨recordCoverageCauses ⟨[], []⟩ rs, ?_⟩
      cases h : env.baseCoverageCall.result with
      | ok bc => simp [stBaseCoverage, hsw, runStage, exitOf, h]
      | error m =>
          simp [stBaseCoverage, hsw, runStage, exitOf, h, DataCollector.addError]

theorem stGenerateReport_ign (env : Env) (x : DataCollector JsonReport)
    (s : RunState) :
    stGenerateReport env { s with ign := x } =
      { stGenerateReport env s with ign := x } := rfl

theorem stPublishReport_ign (env : Env) (x : DataCollector JsonReport)
    (s : RunState) :
    stPublishReport env { s with ign := x } =
      { stPublishReport env s with ign := x } := rfl

theorem stFailedTestsAnn_ign (env : Env) (x : DataCollector JsonReport)
    (s : RunState) :
    stFailedTestsAnn env { s with ign := x } =
      { stFailedTestsAnn env s with ign := x } := rfl

theorem stCoverageAnn_ign (env : Env) (x : DataCollector JsonReport)
    (s : RunState) :
    stCoverageAnn env { s with ign := x } =
      { stCoverageAnn env s with ign := x } := rfl

theorem stFinal_ign (x : DataCollector JsonReport) (s : RunState) :
    stFinal { s with ign := x } = { stFinal s with ign := x } := by
  simp only [stFinal, DataCollector.get]
  by_cases h : 0 < s.dc.errors.length
  · rw [if_pos h, if_pos h]
  · rw [if_neg h, if_neg h]

/-- Counterexample to claim C5: a run in which only the base-coverage stage
body throws ends with that error on the MAIN accumulator (the disposable
accumulator stays empty) and the run IS marked failed — the stage runner
for the baseCoverage stage is handed the main collector, so a thrown
failure in that stage is not isolated. -/
theorem base_coverage_throw_fails_run_cex :
    (run envBaseThrows dcE).dc.errors =
      [⟨"baseCoverage", Cause.thrown "base coverage exploded"⟩] ∧
    (run envBaseThrows dcE).setFailedMsg = some (i18n "failed") ∧
    (run envBaseThrows dcE).ign.errors = [] :=
  ⟨by decide, by decide, by decide⟩

/-- Claim C5 (amended): the failure causes the coverage collection records
through the disposable accumulator during the base-coverage stage are never
merged into the main accumulator and can never affect whether the run is
marked failed — the main collector and the failure decision are identical
no matter what is recorded there.  (An exception thrown by the stage body
itself, by contrast, is appended to the main accumulator by the stage
runner and does fail the run.) -/
theorem disposable_collector_isolated (env : Env) (dc0 : DataCollector JsonReport)
    (rs : List String) :
    (run { env with baseCoverageCall := ⟨rs, env.baseCoverageCall.result⟩ } dc0).dc
      = (run env dc0).dc ∧
    (run { env with baseCoverageCall :=
        ⟨rs, env.baseCoverageCall.result⟩ } dc0).setFailedMsg
      = (run env dc0).setFailedMsg := by
  obtain ⟨ig, hswap⟩ := stBaseCoverage_swap env rs
    (stSwitchToBase env (stHeadCoverage env (stInitialize env (initState dc0))))
  have eInit : ∀ s, stInitialize { env with baseCoverageCall :=
      ⟨rs, env.baseCoverageCall.result⟩ } s = stInitialize env s := fun _ => rfl
  have eHead : ∀ s, stHeadCoverage { env with baseCoverageCall :=
      ⟨rs, env.baseCoverageCall.result⟩ } s = stHeadCoverage env s := fun _ => rfl
  have eSw : ∀ s, stSwitchToBase { env with baseCoverageCall :=
      ⟨rs, env.baseCoverageCall.result⟩ } s = stSwitchToBase env s := fun _ => rfl
  have eGen : ∀ s, stGenerateReport { env with baseCoverageCall :=
      ⟨rs, env.baseCoverageCall.result⟩ } s = stGenerateReport env s := fun _ => rfl
  have ePub : ∀ s, stPublishReport { env with baseCoverageCall :=
      ⟨rs, env.baseCoverageCall.result⟩ } s = stPublishReport env s := fun _ => rfl
  have eFA : ∀ s, stFailedTestsAnn { env with baseCoverageCall :=
      ⟨rs, env.baseCoverageCall.result⟩ } s = stFailedTestsAnn env s := fun _ => rfl
  have eCA : ∀ s, stCoverageAnn { env with baseCoverageCall :=
      ⟨rs, env.baseCoverageCall.result⟩ } s = stCoverageAnn env s := fun _ => rfl
  have hrc : runChain { env with baseCoverageCall :=
      ⟨rs, env.baseCoverageCall.result⟩ } (stInitialize env (initState dc0)) =
      { runChain env (stInitialize env (initState dc0)) with ign := ig } := by
    unfold runChain
    simp only [eHead, eSw, eGen, ePub, eFA, eCA]
    rw [hswap, stGenerateReport_ign, stPublishReport_ign, stFailedTestsAnn_ign,
      stCoverageAnn_ign]
  cases hb : (stInitialize env (initState dc0)).abortedWith.isSome with
  | true =>
      have r1 : run { env with baseCoverageCall :=
          ⟨rs, env.baseCoverageCall.result⟩ } dc0 =
          stInitialize env (initState dc0) := by
        unfold run
        simp only [eInit]
        rw [if_pos hb]
      have r2 : run env dc0 = stInitialize env (initState dc0) := by
        unfold run
        rw [if_pos hb]
      rw [r1, r2]
      exact ⟨rfl, rfl⟩
  | false =>
      have hb' : ¬((stInitialize env (initState dc0)).abortedWith.isSome = true) := by
        simp [hb]
      have r1 : run { env with baseCoverageCall :=
          ⟨rs, env.baseCoverageCall.result⟩ } dc0 =
          runTail { env with baseCoverageCall := ⟨rs, env.baseCoverageCall.result⟩ }
            (stInitialize env (initState dc0)) := by
        unfold run
        simp only [eInit]
        rw [if_neg hb']
      have r2 : run env dc0 = runTail env (stInitialize env (initState dc0)) := by
        unfold run
        rw [if_neg hb']
      have hft : runTail { env with baseCoverageCall :=
          ⟨rs, env.baseCoverageCall.result⟩ } (stInitialize env (initState dc0)) =
          { runTail env (stInitialize env (initState dc0)) with ign := ig } := by
        unfold runTail
        rw [hrc, stFinal_ign]
      rw [r1, r2, hft]
      exact ⟨rfl, rfl⟩

/-- Claim C10: whenever a gating completion flag of the run is true the
corresponding stage value is defined (isReportContentGenerated implies the
summary report exists, isHeadCoverageGenerated implies the head coverage
exists), and consequently the unguarded non-null dereferences are safe: no
error with cause TypeError-on-summaryReport is ever recorded by the
publishReport stage, and no error with cause TypeError-on-headCoverage is
ever recorded at all. -/
theorem gating_flags_safe (env : Env) (dc0 : DataCollector JsonReport) :
    (!(run env dc0).isReportContentGenerated
      || Option.isSome (run env dc0).summaryReportVal) = true ∧
    (!(run env dc0).isHeadCoverageGenerated
      || Option.isSome (run env dc0).headCoverageVal) = true ∧
    ∃ t, (run env dc0).dc.errors = dc0.errors ++ t ∧
      t.all (fun e =>
        !(e.stage == "publishReport" && e.cause == Cause.nullDeref "summaryReport")
        && !(e.cause == Cause.nullDeref "headCoverage")) = true := by
  obtain ⟨t0, v0, h0, p0, -, -⟩ := stInitialize_frame env (initState dc0)
  have e0 : (stInitialize env (initState dc0)).dc.errors = dc0.errors ++ t0 := by
    rw [h0]
    rfl
  cases hb : (stInitialize env (initState dc0)).abortedWith.isSome with
  | true =>
      have hrun : run env dc0 = stInitialize env (initState dc0) := by
        unfold run
        rw [if_pos hb]
      refine ⟨?_, ?_, t0, ?_, ?_⟩
      · rw [hrun, h0]
        rfl
      · rw [hrun, h0]
        rfl
      · rw [hrun, e0]
      · rw [List.all_eq_true]
        intro e he
        obtain ⟨hs, m, hc⟩ := p0 e he
        simp [hs, hc]
  | false =>
      have hb' : ¬((stInitialize env (initState dc0)).abortedWith.isSome = true) := by
        simp [hb]
      have hrun : run env dc0 = runTail env (stInitialize env (initState dc0)) := by
        unfold run
        rw [if_neg hb']
      obtain ⟨t1, v1, h1e, p1, -⟩ :=
        stHeadCoverage_frame env (stInitialize env (initState dc0))
      obtain ⟨t2, sw2, o2, h2e, p2, -, -, -⟩ :=
        stSwitchToBase_frame env (stHeadCoverage env (stInitialize env (initState dc0)))
      obtain ⟨t3, v3, ig3, h3e, p3, -, -, -⟩ := stBaseCoverage_frame env
        (stSwitchToBase env (stHeadCoverage env (stInitialize env (initState dc0))))
      obtain ⟨t4, v4, h4e, p4, -, -⟩ := stGenerateReport_frame env
        (stBaseCoverage env (stSwitchToBase env (stHeadCoverage env
          (stInitialize env (initState dc0)))))
      obtain ⟨t5, h5e, p5, p5inv, -, -⟩ := stPublishReport_frame env
        (stGenerateReport env (stBaseCoverage env (stSwitchToBase env
          (stHeadCoverage env (stInitialize env (initState dc0))))))
      obtain ⟨t6, h6e, p6tags, p6inv, -, -⟩ := stFailedTestsAnn_frame env
        (stPublishReport env (stGenerateReport env (stBaseCoverage env
          (stSwitchToBase env (stHeadCoverage env (stInitialize env
            (initState dc0)))))))
      obtain ⟨t7, h7e, p7tags, p7inv, -, -⟩ := stCoverageAnn_frame env
        (stFailedTestsAnn env (stPublishReport env (stGenerateReport env
          (stBaseCoverage env (stSwitchToBase env (stHeadCoverage env
            (stInitialize env (initState dc0))))))))
      have f1 : (run env dc0).isReportContentGenerated = v4.isSome := by
        rw [hrun, runTail_eq]
        have q : (runChain env (stInitialize env (initState dc0))).isReportContentGenerated
            = (stGenerateReport env (stBaseCoverage env (stSwitchToBase env
              (stHeadCoverage env (stInitialize env
                (initState dc0)))))).isReportContentGenerated := rfl
        show (runChain env (stInitialize env (initState dc0))).isReportContentGenerated
          = v4.isSome
        rw [q, h4e]
      have f2 : (run env dc0).summaryReportVal = v4 := by
        rw [hrun, runTail_eq]
        have q : (runChain env (stInitialize env (initState dc0))).summaryReportVal
            = (stGenerateReport env (stBaseCoverage env (stSwitchToBase env
              (stHeadCoverage env (stInitialize env
                (initState dc0)))))).summaryReportVal := rfl
        show (runChain env (stInitialize env (initState dc0))).summaryReportVal = v4
        rw [q, h4e]
      have f3 : (run env dc0).isHeadCoverageGenerated = v1.isSome := by
        rw [hrun, runTail_eq]
        have q : (runChain env (stInitialize env (initState dc0))).isHeadCoverageGenerated
            = (stSwitchToBase env (stHeadCoverage env (stInitialize env
              (initState dc0)))).isHeadCoverageGenerated := rfl
        show (runChain env (stInitialize env (initState dc0))).isHeadCoverageGenerated
          = v1.isSome
        rw [q, h2e, h1e]
      have f4 : (run env dc0).headCoverageVal = v1 := by
        rw [hrun, runTail_eq]
        have q : (runChain env (stInitialize env (initState dc0))).headCoverageVal
            = (stSwitchToBase env (stHeadCoverage env (stInitialize env
              (initState dc0)))).headCoverageVal := rfl
        show (runChain env (stInitialize env (initState dc0))).headCoverageVal = v1
        rw [q, h2e, h1e]
      have invPub : ((stGenerateReport env (stBaseCoverage env (stSwitchToBase env
          (stHeadCoverage env (stInitialize env
            (initState dc0)))))).isReportContentGenerated = true →
          Option.isSome (stGenerateReport env (stBaseCoverage env (stSwitchToBase env
            (stHeadCoverage env (stInitialize env
              (initState dc0)))))).summaryReportVal = true) := by
        intro hflag
        rw [h4e]
        rw [h4e] at hflag
        exact hflag
      have hX6hcg : (stPublishReport env (stGenerateReport env (stBaseCoverage env
          (stSwitchToBase env (stHeadCoverage env (stInitialize env
            (initState dc0))))))).isHeadCoverageGenerated = v1.isSome := by
        have q : (stPublishReport env (stGenerateReport env (stBaseCoverage env
            (stSwitchToBase env (stHeadCoverage env (stInitialize env
              (initState dc0))))))).isHeadCoverageGenerated =
            (stSwitchToBase env (stHeadCoverage env (stInitialize env
              (initState dc0)))).isHeadCoverageGenerated := rfl
        rw [q, h2e, h1e]
      have hX6hv : (stPublishReport env (stGenerateReport env (stBaseCoverage env
          (stSwitchToBase env (stHeadCoverage env (stInitialize env
            (initState dc0))))))).headCoverageVal = v1 := by
        have q : (stPublishReport env (stGenerateReport env (stBaseCoverage env
            (stSwitchToBase env (stHeadCoverage env (stInitialize env
              (initState dc0))))))).headCoverageVal =
            (stSwitchToBase env (stHeadCoverage env (stInitialize env
              (initState dc0)))).headCoverageVal := rfl
        rw [q, h2e, h1e]
      have invFA : ((stPublishReport env (stGenerateReport env (stBaseCoverage env
          (stSwitchToBase env (stHeadCoverage env (stInitialize env
            (initState dc0))))))).isHeadCoverageGenerated = true →
          Option.isSome (stPublishReport env (stGenerateReport env (stBaseCoverage env
            (stSwitchToBase env (stHeadCoverage env (stInitialize env
              (initState dc0))))))).headCoverageVal = true) := by
        intro hflag
        rw [hX6hv]
        rw [hX6hcg] at hflag
        exact hflag
      have invCA : ((stFailedTestsAnn env (stPublishReport env (stGenerateReport env
          (stBaseCoverage env (stSwitchToBase env (stHeadCoverage env
            (stInitialize env (initState dc0)))))))).isHeadCoverageGenerated = true →
          Option.isSome (stFailedTestsAnn env (stPublishReport env (stGenerateReport env
            (stBaseCoverage env (stSwitchToBase env (stHeadCoverage env
              (stInitialize env (initState dc0)))))))).headCoverageVal = true) := by
        intro hflag
        have q1 : (stFailedTestsAnn env (stPublishReport env (stGenerateReport env
            (stBaseCoverage env (stSwitchToBase env (stHeadCoverage env
              (stInitialize env (initState dc0)))))))).isHeadCoverageGenerated =
            (stPublishReport env (stGenerateReport env (stBaseCoverage env
              (stSwitchToBase env (stHeadCoverage env (stInitialize env
                (initState dc0))))))).isHeadCoverageGenerated := rfl
        have q2 : (stFailedTestsAnn env (stPublishReport env (stGenerateReport env
            (stBaseCoverage env (stSwitchToBase env (stHeadCoverage env
              (stInitialize env (initState dc0)))))))).headCoverageVal =
            (stPublishReport env (stGenerateReport env (stBaseCoverage env
              (stSwitchToBase env (stHeadCoverage env (stInitialize env
                (initState dc0))))))).headCoverageVal := rfl
        rw [q2]
        rw [q1] at hflag
        exact invFA hflag
      have e1 : (stHeadCoverage env (stInitialize env (initState dc0))).dc.errors =
          (stInitialize env (initState dc0)).dc.errors ++ t1 := by rw [h1e]
      have e2 : (stSwitchToBase env (stHeadCoverage env (stInitialize env
          (initState dc0)))).dc.errors =
          (stHeadCoverage env (stInitialize env (initState dc0))).dc.errors
            ++ t2 := by rw [h2e]
      have e3 : (stBaseCoverage env (stSwitchToBase env (stHeadCoverage env
          (stInitialize env (initState dc0))))).dc.errors =
          (stSwitchToBase env (stHeadCoverage env (stInitialize env
            (initState dc0)))).dc.errors ++ t3 := by rw [h3e]
      have e4 : (stGenerateReport env (stBaseCoverage env (stSwitchToBase env
          (stHeadCoverage env (stInitialize env (initState dc0)))))).dc.errors =
          (stBaseCoverage env (stSwitchToBase env (stHeadCoverage env
            (stInitialize env (initState dc0))))).dc.errors ++ t4 := by rw [h4e]
      have e5 : (stPublishReport env (stGenerateReport env (stBaseCoverage env
          (stSwitchToBase env (stHeadCoverage env (stInitialize env
            (initState dc0))))))).dc.errors =
          (stGenerateReport env (stBaseCoverage env (stSwitchToBase env
            (stHeadCoverage env (stInitialize env (initState dc0)))))).dc.errors
            ++ t5 := by rw [h5e]
      have e6 : (stFailedTestsAnn env (stPublishReport env (stGenerateReport env
          (stBaseCoverage env (stSwitchToBase env (stHeadCoverage env
            (stInitialize env (initState dc0)))))))).dc.errors =
          (stPublishReport env (stGenerateReport env (stBaseCoverage env
            (stSwitchToBase env (stHeadCoverage env (stInitialize env
              (initState dc0))))))).dc.errors ++ t6 := by rw [h6e]
      have e7 : (runChain env (stInitialize env (initState dc0))).dc.errors =
          (stFailedTestsAnn env (stPublishReport env (stGenerateReport env
            (stBaseCoverage env (stSwitchToBase env (stHeadCoverage env
              (stInitialize env (initState dc0)))))))).dc.errors ++ t7 := by
        unfold runChain
        rw [h7e]
      refine ⟨?_, ?_, t0 ++ (t1 ++ (t2 ++ (t3 ++ (t4 ++ (t5 ++ (t6 ++ t7)))))),
        ?_, ?_⟩
      · rw [f1, f2]
        cases v4 <;> rfl
      · rw [f3, f4]
        cases v1 <;> rfl
      · rw [hrun, runTail_eq]
        show (runChain env (stInitialize env (initState dc0))).dc.errors = _
        rw [e7, e6, e5, e4, e3, e2, e1, e0]
        simp [List.append_assoc]
      · rw [List.all_eq_true]
        intro e he
        simp only [List.mem_append] at he
        rcases he with h | h | h | h | h | h | h | h
        · obtain ⟨hs, m, hc⟩ := p0 e h
          simp [hs, hc]
        · obtain ⟨hs | hs, m, hc⟩ := p1 e h
          · simp [hs, hc]
          · simp [hs, hc]
        · obtain ⟨hs, m, hc⟩ := p2 e h
          simp [hs, hc]
        · obtain ⟨hs, m, hc⟩ := p3 e h
          simp [hs, hc]
        · obtain ⟨hs, m, hc⟩ := p4 e h
          simp [hs, hc]
        · obtain ⟨hs, hneq⟩ := p5 e h
          have hsr : e.cause ≠ Cause.nullDeref "summaryReport" := p5inv invPub e h
          simp [hs, hneq, hsr]
        · have hhc : e.cause ≠ Cause.nullDeref "headCoverage" := p6inv invFA e h
          simp [p6tags e h, hhc]
        · have hhc : e.cause ≠ Cause.nullDeref "headCoverage" := p7inv invCA e h
          simp [p7tags e h, hhc]

end CovAction
